import Mathlib

/-!
Verification of the game-rl bridge/protocol layer: a shallow embedding of the
agent registry, the RCON packet codec and client retry logic, the framed
transports, the reader/demultiplexer task, the observation poller and the
JSON message envelope, with theorems settling the specification's claims.

Conventions of the embedding:
* Rust machine integers are modelled as `Nat` / `Int` with explicit
  `% 2^w` arithmetic where wrapping matters; range side conditions record
  the Rust integer type of a field.
* Rust `f64` / `f32` payloads are modelled as exact rationals (`Rat`);
  non-finite floating values are outside the model.
* `HashMap` is modelled as an association list; `Vec` as a `List`.
* Fallible Rust functions returning `Result` are modelled with `Except`.
* JSON is modelled at the value level: an object is the ordered sequence of
  key/value entries the serializer emits (duplicates representable, as the
  streaming serializer can emit them).
-/

namespace GameRL

/-- JSON value, at the level of the entry stream produced/consumed by the
serializer: objects are ordered lists of entries and may carry duplicate
keys, exactly as a streaming writer can emit them. -/
inductive Json where
  | null : Json
  | bool (b : Bool) : Json
  | num (q : Rat) : Json
  | str (s : String) : Json
  | arr (elems : List Json) : Json
  | obj (fields : List (String × Json)) : Json

/-- The error enumeration of `game-rl-core/src/error.rs` (`GameRLError`).
Note it has no `AuthenticationFailed` constructor. -/
inductive GameRLError where
  | AgentNotRegistered (s : String)
  | InvalidAction (s : String)
  | ActionSpaceViolation (s : String)
  | EpisodeTerminated
  | SyncTimeout
  | ResourceExhausted (s : String)
  | StreamError (s : String)
  | IpcError (s : String)
  | SerializationError (s : String)
  | GameError (s : String)
  | ProtocolError (s : String)
deriving DecidableEq, Repr

/-- The `thiserror`-derived `Display` string of each `GameRLError` variant. -/
def GameRLError.displayString : GameRLError → String
  | .AgentNotRegistered s => "Agent not registered: " ++ s
  | .InvalidAction s => "Invalid action: " ++ s
  | .ActionSpaceViolation s => "Action not in action space: " ++ s
  | .EpisodeTerminated => "Episode terminated, call reset"
  | .SyncTimeout => "Sync timeout: agent missed step deadline"
  | .ResourceExhausted s => "Resource exhausted: " ++ s
  | .StreamError s => "Stream error: " ++ s
  | .IpcError s => "IPC error: " ++ s
  | .SerializationError s => "Serialization error: " ++ s
  | .GameError s => "Game error: " ++ s
  | .ProtocolError s => "Protocol error: " ++ s

/-- Whether the error is the transport/IPC failure kind (`IpcError`), the kind
the spec calls "ConnectionLost (transport EOF/IO failure)". -/
def GameRLError.isIpcError : GameRLError → Bool
  | .IpcError _ => true
  | _ => false

/-- Whether the error is the `ProtocolError` kind. -/
def GameRLError.isProtocolError : GameRLError → Bool
  | .ProtocolError _ => true
  | _ => false

/-- Substring test, modelling Rust `str::contains`. -/
def strContains (hay needle : String) : Bool :=
  decide (needle.toList <:+: hay.toList)

/- ===================== Agent registry (registry.rs) ===================== -/

/-- Model of `AgentType` from `game-rl-core/src/agent.rs`. -/
inductive AgentType where
  | EntityBehavior
  | Player
  | StrategyController
  | ColonyManager
  | WorldSimulation
  | GameMaster
  | DialogueAgent
  | CombatDirector
  | Custom (s : String)
deriving DecidableEq, Repr

/-- Model of `AgentStatus` from `game-rl-core/src/agent.rs`. -/
inductive AgentStatus where
  | Registered
  | Active
  | Terminal
  | Disconnected
deriving DecidableEq, Repr

/-- Model of `AgentEntry` from `game-rl-core/src/agent.rs` (`total_reward: f64` modelled
as `Rat`). -/
structure AgentEntry where
  agent_id : String
  agent_type : AgentType
  status : AgentStatus
  registered_at : String
  last_step : Nat
  total_reward : Rat
deriving DecidableEq, Repr

/-- Model of `RegistryError` from `game-rl-server/src/registry.rs`. -/
inductive RegistryError where
  | AlreadyRegistered (id : String)
  | NotFound (id : String)
  | CapacityExceeded
deriving DecidableEq, Repr

/-- The stubbed timestamp helper `chrono_lite::now_utc`. -/
def now_utc : String := "2025-01-01T00:00:00Z"

/-- Model of `AgentRegistry`: the `HashMap<AgentId, AgentEntry>` is modelled as an
association list keyed by agent id. -/
structure AgentRegistry where
  agents : List (String × AgentEntry)
  max_agents : Nat
deriving DecidableEq, Repr

/-- Model of `AgentRegistry::new`. -/
def AgentRegistry.new (max_agents : Nat) : AgentRegistry :=
  { agents := [], max_agents := max_agents }

/-- Key membership in the agents map (`HashMap::contains_key`). -/
def AgentRegistry.containsKey (r : AgentRegistry) (agent_id : String) : Bool :=
  r.agents.any (fun p => p.1 = agent_id)

/-- Model of `AgentRegistry::register`, line for line: the capacity test
`self.agents.len() >= self.max_agents` comes first, then the idempotency
test, then the insert.  The successor registry is returned alongside the
`Result`; an error leaves the registry unchanged. -/
def AgentRegistry.register (r : AgentRegistry) (agent_id : String)
    (agent_type : AgentType) : Except RegistryError AgentRegistry :=
  if r.agents.length ≥ r.max_agents then
    .error .CapacityExceeded
  else if r.containsKey agent_id then
    .ok r
  else
    .ok { r with
          agents := r.agents ++
            [(agent_id,
              { agent_id := agent_id
                agent_type := agent_type
                status := .Registered
                registered_at := now_utc
                last_step := 0
                total_reward := 0 })] }

/-- Model of `AgentRegistry::deregister` (`HashMap::remove`). -/
def AgentRegistry.deregister (r : AgentRegistry) (agent_id : String) :
    Except RegistryError AgentRegistry :=
  if r.containsKey agent_id then
    .ok { r with agents := r.agents.filter (fun p => ¬ p.1 = agent_id) }
  else
    .error (.NotFound agent_id)

/-- Model of `AgentRegistry::set_status`: silently no-ops when the id is absent. -/
def AgentRegistry.set_status (r : AgentRegistry) (agent_id : String)
    (status : AgentStatus) : AgentRegistry :=
  { r with
    agents := r.agents.map (fun p =>
      if p.1 = agent_id then (p.1, { p.2 with status := status }) else p) }

/-- Model of `AgentRegistry::record_step`: increments the step counter and accumulates
reward only if the id exists, silently no-ops otherwise. -/
def AgentRegistry.record_step (r : AgentRegistry) (agent_id : String)
    (reward : Rat) : AgentRegistry :=
  { r with
    agents := r.agents.map (fun p =>
      if p.1 = agent_id then
        (p.1, { p.2 with
                last_step := p.2.last_step + 1
                total_reward := p.2.total_reward + reward })
      else p) }

/-- Model of `AgentRegistry::count`. -/
def AgentRegistry.count (r : AgentRegistry) : Nat := r.agents.length

/-- Model of `AgentRegistry::available_slots` (`self.max_agents - self.agents.len()`,
a `usize` subtraction). -/
def AgentRegistry.available_slots (r : AgentRegistry) : Nat :=
  r.max_agents - r.agents.length

/-- One mutating registry operation, for stating invariants over arbitrary
operation sequences. -/
inductive RegistryOp where
  | register (agent_id : String) (agent_type : AgentType)
  | deregister (agent_id : String)
  | record_step (agent_id : String) (reward : Rat)
  | set_status (agent_id : String) (status : AgentStatus)

/-- Apply one operation; a `Result::Err` from register/deregister leaves the
registry unchanged, exactly as the early `return Err(...)` does in Rust. -/
def AgentRegistry.applyOp (r : AgentRegistry) : RegistryOp → AgentRegistry
  | .register agent_id agent_type =>
      match r.register agent_id agent_type with
      | .ok r' => r'
      | .error _ => r
  | .deregister agent_id =>
      match r.deregister agent_id with
      | .ok r' => r'
      | .error _ => r
  | .record_step agent_id reward => r.record_step agent_id reward
  | .set_status agent_id status => r.set_status agent_id status

/-- Apply a sequence of operations in order. -/
def AgentRegistry.applyOps (r : AgentRegistry) (ops : List RegistryOp) :
    AgentRegistry :=
  ops.foldl AgentRegistry.applyOp r

/-- A registry holding exactly the two agents "a" and "b" with capacity 2
(the spec's capacity scenario after both successful registrations). -/
def regAB : AgentRegistry :=
  match (AgentRegistry.new 2).register "a" .Player with
  | .ok r1 =>
      match r1.register "b" .Player with
      | .ok r2 => r2
      | .error _ => r1
  | .error _ => AgentRegistry.new 2

/- ===================== RCON packet codec (rcon.rs) ===================== -/

/-- Wire value of `PacketType::ExecCommand`. -/
def EXEC_COMMAND : Int := 2

/-- Wire value of `PacketType::Auth`. -/
def AUTH : Int := 3

/-- Little-endian 4-byte encoding of an `i32` (any `Int`, wrapped mod 2^32),
modelling `i32::to_le_bytes`. -/
def i32ToLeBytes (n : Int) : List Nat :=
  let u := (n % 4294967296).toNat
  [u % 256, u / 256 % 256, u / 65536 % 256, u / 16777216 % 256]

/-- Little-endian read of 4 bytes as an unsigned 32-bit value. -/
def leBytesToU32 (bs : List Nat) : Nat :=
  match bs with
  | [b0, b1, b2, b3] => b0 + 256 * b1 + 65536 * b2 + 16777216 * b3
  | _ => 0

/-- Reinterpret an unsigned 32-bit value as an `i32` (two's complement),
modelling `i32::from_le_bytes`. -/
def u32ToI32 (u : Nat) : Int :=
  if u < 2147483648 then (u : Int) else (u : Int) - 4294967296

/-- Model of `RconPacket` (`body: String` modelled as its byte sequence). -/
structure RconPacket where
  id : Int
  packet_type : Int
  body : List Nat
deriving DecidableEq, Repr

/-- Model of `RconPacket::to_bytes`: size field = 4 (id) + 4 (type) + body + 2 nulls,
then id, type, body, and the two trailing zero bytes. -/
def RconPacket.to_bytes (p : RconPacket) : List Nat :=
  let size := 4 + 4 + p.body.length + 2
  i32ToLeBytes (size : Int) ++ i32ToLeBytes p.id ++ i32ToLeBytes p.packet_type ++
    p.body ++ [0, 0]

/-- Model of `RconPacket::from_bytes` (input excludes the size prefix): id and type are
little-endian `i32`s; the body is everything after byte 8 up to the first
zero byte (`position(|&b| b == 0).unwrap_or(data.len() - 8)`). -/
def RconPacket.from_bytes (data : List Nat) : Except GameRLError RconPacket :=
  if data.length < 10 then
    .error (.ProtocolError "RCON packet too short")
  else
    let id := u32ToI32 (leBytesToU32 (data.take 4))
    let packet_type := u32ToI32 (leBytesToU32 ((data.drop 4).take 4))
    let rest := data.drop 8
    let body_end := rest.findIdx (fun b => b == 0)
    .ok { id := id, packet_type := packet_type, body := rest.take body_end }

/-- The auth-response classification inside `RconClient::connect`: a reply
packet with `id == -1` yields `Err(GameRLError::IpcError("RCON authentication
failed"))`; any other id marks the client authenticated. -/
def rcon_connect_auth (response : RconPacket) : Except GameRLError Unit :=
  if response.id = -1 then
    .error (.IpcError "RCON authentication failed")
  else
    .ok ()

/-- The connection-related test in `RconClient::execute`: the error's display
string contains "Broken pipe", "eof", "not connected" or "not authenticated". -/
def isConnectionRelated (e : GameRLError) : Bool :=
  strContains e.displayString "Broken pipe" ||
    strContains e.displayString "eof" ||
    strContains e.displayString "not connected" ||
    strContains e.displayString "not authenticated"

/-- The two effectful calls `RconClient::execute` can make. -/
inductive RconCall where
  | innerExec
  | reconnect
deriving DecidableEq, Repr

/-- Model of `RconClient::execute`, as a function of the outcome of the first
`execute_inner`, the outcome of `connect`, and the outcome of a second
`execute_inner` (used only if reached).  Returns the trace of calls made and
the overall result. -/
def rcon_execute (first : Except GameRLError String)
    (conn : Except GameRLError Unit) (second : Except GameRLError String) :
    List RconCall × Except GameRLError String :=
  match first with
  | .ok response => ([.innerExec], .ok response)
  | .error e =>
      if isConnectionRelated e then
        match conn with
        | .error ce => ([.innerExec, .reconnect], .error ce)
        | .ok _ => ([.innerExec, .reconnect, .innerExec], second)
      else
        ([.innerExec], .error e)

/- ============== Message envelope data model (protocol.rs, core) ============== -/

/-- Model of `Action` from `game-rl-core/src/action.rs`: an untagged serde enum.
`Parameterized` carries the `Type` field and a flattened open parameter map. -/
inductive Action where
  | Discrete (n : Int)
  | Continuous (xs : List Rat)
  | Parameterized (action_type : String) (params : List (String × Json))
  | Wait

/-- Model of `Observation` from `game-rl-core/src/observation.rs`: an untagged serde
enum tried in declaration order Structured, Vector, Custom. -/
inductive Observation where
  | Structured (fields : List (String × Json))
  | Vector (xs : List Rat)
  | Custom (v : Json)

/-- Model of `GameCapabilities` from `game-bridge/src/protocol.rs` (PascalCase fields). -/
structure GameCapabilities where
  multi_agent : Bool
  max_agents : Nat
  deterministic : Bool
  headless : Bool

/-- Model of `GameEvent` from `game-rl-core/src/observation.rs` (snake-case fields,
`event_type` renamed to "type", `severity` and `details` defaulted). -/
structure GameEvent where
  event_type : String
  tick : Nat
  severity : Nat
  details : Json

/-- Model of `StepResultPayload` from `game-bridge/src/protocol.rs` (PascalCase fields,
`state_hash` skipped when `None`, `reward_components` defaulted). -/
structure StepResultPayload where
  agent_id : String
  observation : Observation
  reward : Rat
  reward_components : List (String × Rat)
  done : Bool
  truncated : Bool
  state_hash : Option String

/-- Model of `PixelFormat` from `game-rl-core/src/stream.rs` (lowercase names). -/
inductive PixelFormat where
  | Rgba8
  | Bgra8
  | Rgb8
  | R32f
  | Rg32f
deriving DecidableEq, Repr

/-- Model of `StreamTransport` from `game-rl-core/src/stream.rs` (tag "Type"). -/
inductive StreamTransport where
  | IOSurface (surface_ids : List Nat)
  | Shm (shm_name : String) (offsets : List Nat)
  | Dxgi (shared_handles : List Nat)
  | Inline

/-- Model of `StreamSync` from `game-rl-core/src/stream.rs` (tag "Type"). -/
inductive StreamSync where
  | MetalEvent (handle : Nat)
  | D3dFence (handle : Nat)
  | Semaphore (name : String)
  | Polling

/-- Model of `StreamDescriptor` from `game-rl-core/src/stream.rs` (PascalCase fields,
`sync` skipped when `None`). -/
structure StreamDescriptor where
  stream_id : String
  width : Nat
  height : Nat
  pixel_format : PixelFormat
  ring_count : Nat
  transport : StreamTransport
  sync : Option StreamSync

/-- Model of `RewardShaping` from `game-rl-core/src/agent.rs`. -/
structure RewardShaping where
  components : List String
  weights : List (String × Rat)

/-- Model of `AgentConfig` from `game-rl-core/src/agent.rs` (PascalCase fields,
`entity_id` and `reward_shaping` skipped when `None`, `observation_profile`
defaulting to "default", `action_mask` and `extra` defaulted). -/
structure AgentConfig where
  entity_id : Option String
  observation_profile : String
  action_mask : List String
  reward_shaping : Option RewardShaping
  extra : List (String × Json)

/-- Model of `GameMessage` from `game-bridge/src/protocol.rs`: internally tagged with
tag field "Type", PascalCase variant names, explicit PascalCase field renames. -/
inductive GameMessage where
  | Ready (name : String) (version : String) (capabilities : GameCapabilities)
  | StateUpdate (tick : Nat) (state : Json) (events : List GameEvent)
  | AgentRegistered (agent_id : String) (observation_space : Json)
      (action_space : Json)
  | StepResult (result : StepResultPayload)
  | BatchStepResult (results : List StepResultPayload)
  | ResetComplete (observation : Observation) (state_hash : Option String)
  | StateHash (hash : String)
  | StreamsConfigured (agent_id : String) (descriptors : List StreamDescriptor)
  | Error (code : Int) (message : String)
  | RegisterAgent (agent_id : String) (agent_type : AgentType)
      (config : AgentConfig)
  | DeregisterAgent (agent_id : String)
  | ExecuteAction (agent_id : String) (action : Action) (ticks : Nat)
  | Reset (seed : Option Nat) (scenario : Option String)
  | GetStateHash
  | ConfigureStreams (agent_id : String) (profile : String)
  | Shutdown

/- ===================== Envelope serialization ===================== -/

/-- Serialize an `Option<String>` field that is not skipped: `None` → null. -/
def jsonOfOptStr : Option String → Json
  | none => .null
  | some s => .str s

/-- Serialize an `Option<u64>` field that is not skipped: `None` → null. -/
def jsonOfOptNat : Option Nat → Json
  | none => .null
  | some n => .num (n : Rat)

/-- Serialize a `HashMap<String, f64>` (or f32) as a JSON object. -/
def jsonOfRatMap (m : List (String × Rat)) : Json :=
  .obj (m.map (fun p => (p.1, Json.num p.2)))

/-- Model of `AgentType` serialization: externally tagged, PascalCase variant names,
`Custom(String)` as a single-entry map. -/
def AgentType.toJson : AgentType → Json
  | .EntityBehavior => .str "EntityBehavior"
  | .Player => .str "Player"
  | .StrategyController => .str "StrategyController"
  | .ColonyManager => .str "ColonyManager"
  | .WorldSimulation => .str "WorldSimulation"
  | .GameMaster => .str "GameMaster"
  | .DialogueAgent => .str "DialogueAgent"
  | .CombatDirector => .str "CombatDirector"
  | .Custom s => .obj [("Custom", .str s)]

/-- Model of `Action` serialization (untagged): `Parameterized` writes the "Type" entry
followed by the flattened parameter entries; `Wait` (a unit variant) is null. -/
def Action.toJson : Action → Json
  | .Discrete n => .num (n : Rat)
  | .Continuous xs => .arr (xs.map Json.num)
  | .Parameterized action_type params => .obj (("Type", Json.str action_type) :: params)
  | .Wait => .null

/-- Model of `Observation` serialization (untagged). -/
def Observation.toJson : Observation → Json
  | .Structured fields => .obj fields
  | .Vector xs => .arr (xs.map Json.num)
  | .Custom v => v

def GameCapabilities.toJson (c : GameCapabilities) : Json :=
  .obj [("MultiAgent", .bool c.multi_agent), ("MaxAgents", .num (c.max_agents : Rat)),
        ("Deterministic", .bool c.deterministic), ("Headless", .bool c.headless)]

def GameEvent.toJson (e : GameEvent) : Json :=
  .obj [("type", .str e.event_type), ("tick", .num (e.tick : Rat)),
        ("severity", .num (e.severity : Rat)), ("details", e.details)]

/-- The field entries of a serialized `StepResultPayload`, in declaration
order; `StateHash` is omitted when `None` (`skip_serializing_if`). -/
def StepResultPayload.fieldsJson (p : StepResultPayload) : List (String × Json) :=
  [("AgentId", .str p.agent_id), ("Observation", p.observation.toJson),
   ("Reward", .num p.reward), ("RewardComponents", jsonOfRatMap p.reward_components),
   ("Done", .bool p.done), ("Truncated", .bool p.truncated)] ++
    (match p.state_hash with
     | some h => [("StateHash", Json.str h)]
     | none => [])

def StepResultPayload.toJson (p : StepResultPayload) : Json :=
  .obj p.fieldsJson

def PixelFormat.toJson : PixelFormat → Json
  | .Rgba8 => .str "rgba8"
  | .Bgra8 => .str "bgra8"
  | .Rgb8 => .str "rgb8"
  | .R32f => .str "r32f"
  | .Rg32f => .str "rg32f"

def StreamTransport.toJson : StreamTransport → Json
  | .IOSurface surface_ids =>
      .obj [("Type", .str "IOSurface"),
            ("surface_ids", .arr (surface_ids.map (fun n : Nat => Json.num (n : Rat))))]
  | .Shm shm_name offsets =>
      .obj [("Type", .str "Shm"), ("shm_name", .str shm_name),
            ("offsets", .arr (offsets.map (fun n : Nat => Json.num (n : Rat))))]
  | .Dxgi shared_handles =>
      .obj [("Type", .str "Dxgi"),
            ("shared_handles", .arr (shared_handles.map (fun n : Nat => Json.num (n : Rat))))]
  | .Inline => .obj [("Type", .str "Inline")]

def StreamSync.toJson : StreamSync → Json
  | .MetalEvent handle => .obj [("Type", .str "MetalEvent"), ("handle", .num (handle : Rat))]
  | .D3dFence handle => .obj [("Type", .str "D3dFence"), ("handle", .num (handle : Rat))]
  | .Semaphore name => .obj [("Type", .str "Semaphore"), ("name", .str name)]
  | .Polling => .obj [("Type", .str "Polling")]

def StreamDescriptor.toJson (d : StreamDescriptor) : Json :=
  .obj ([("StreamId", .str d.stream_id), ("Width", .num (d.width : Rat)),
         ("Height", .num (d.height : Rat)), ("PixelFormat", d.pixel_format.toJson),
         ("RingCount", .num (d.ring_count : Rat)), ("Transport", d.transport.toJson)] ++
    (match d.sync with
     | some s => [("Sync", s.toJson)]
     | none => []))

def RewardShaping.toJson (r : RewardShaping) : Json :=
  .obj [("Components", .arr (r.components.map Json.str)),
        ("Weights", jsonOfRatMap r.weights)]

/-- The field entries of a serialized `AgentConfig`, in declaration order;
`EntityId` and `RewardShaping` are omitted when `None`. -/
def AgentConfig.fieldsJson (c : AgentConfig) : List (String × Json) :=
  (match c.entity_id with
   | some e => [("EntityId", Json.str e)]
   | none => []) ++
    [("ObservationProfile", .str c.observation_profile),
     ("ActionMask", .arr (c.action_mask.map Json.str))] ++
    (match c.reward_shaping with
     | some r => [("RewardShaping", r.toJson)]
     | none => []) ++
    [("Extra", Json.obj c.extra)]

def AgentConfig.toJson (c : AgentConfig) : Json :=
  .obj c.fieldsJson

/-- Model of `serialize` from `game-bridge/src/protocol.rs`, at the JSON value level:
the internally tagged representation writes the "Type" entry first, then the
variant's fields in declaration order with their explicit renames. -/
def serialize : GameMessage → Json
  | .Ready name version capabilities =>
      .obj [("Type", .str "Ready"), ("Name", .str name), ("Version", .str version),
            ("Capabilities", capabilities.toJson)]
  | .StateUpdate tick state events =>
      .obj [("Type", .str "StateUpdate"), ("Tick", .num (tick : Rat)), ("State", state),
            ("Events", .arr (events.map GameEvent.toJson))]
  | .AgentRegistered agent_id observation_space action_space =>
      .obj [("Type", .str "AgentRegistered"), ("AgentId", .str agent_id),
            ("ObservationSpace", observation_space), ("ActionSpace", action_space)]
  | .StepResult result =>
      .obj (("Type", Json.str "StepResult") :: result.fieldsJson)
  | .BatchStepResult results =>
      .obj [("Type", .str "BatchStepResult"),
            ("Results", .arr (results.map StepResultPayload.toJson))]
  | .ResetComplete observation state_hash =>
      .obj [("Type", .str "ResetComplete"), ("Observation", observation.toJson),
            ("StateHash", jsonOfOptStr state_hash)]
  | .StateHash hash =>
      .obj [("Type", .str "StateHash"), ("Hash", .str hash)]
  | .StreamsConfigured agent_id descriptors =>
      .obj [("Type", .str "StreamsConfigured"), ("AgentId", .str agent_id),
            ("Descriptors", .arr (descriptors.map StreamDescriptor.toJson))]
  | .Error code message =>
      .obj [("Type", .str "Error"), ("Code", .num (code : Rat)), ("Message", .str message)]
  | .RegisterAgent agent_id agent_type config =>
      .obj [("Type", .str "RegisterAgent"), ("AgentId", .str agent_id),
            ("AgentType", agent_type.toJson), ("Config", config.toJson)]
  | .DeregisterAgent agent_id =>
      .obj [("Type", .str "DeregisterAgent"), ("AgentId", .str agent_id)]
  | .ExecuteAction agent_id action ticks =>
      .obj [("Type", .str "ExecuteAction"), ("AgentId", .str agent_id),
            ("Action", action.toJson), ("Ticks", .num (ticks : Rat))]
  | .Reset seed scenario =>
      .obj [("Type", .str "Reset"), ("Seed", jsonOfOptNat seed),
            ("Scenario", jsonOfOptStr scenario)]
  | .GetStateHash => .obj [("Type", .str "GetStateHash")]
  | .ConfigureStreams agent_id profile =>
      .obj [("Type", .str "ConfigureStreams"), ("AgentId", .str agent_id),
            ("Profile", .str profile)]
  | .Shutdown => .obj [("Type", .str "Shutdown")]

/- ===================== Envelope deserialization ===================== -/

/-- Number of entries of an object carrying a given key. -/
def countKey (fields : List (String × Json)) (k : String) : Nat :=
  (fields.filter (fun p => p.1 = k)).length

/-- First entry of an object carrying a given key. -/
def getField (fields : List (String × Json)) (k : String) : Option Json :=
  (fields.find? (fun p => p.1 = k)).map (fun p => p.2)

/-- Decode a required struct field: duplicate entries are an error (as in the
derived serde visitor), a missing field is an error. -/
def reqField (fields : List (String × Json)) (k : String)
    (d : Json → Except String α) : Except String α :=
  if countKey fields k ≥ 2 then .error ("duplicate field " ++ k)
  else
    match getField fields k with
    | some j => d j
    | none => .error ("missing field " ++ k)

/-- Decode an `Option<T>` struct field: missing or null gives `none`. -/
def optField (fields : List (String × Json)) (k : String)
    (d : Json → Except String α) : Except String (Option α) :=
  if countKey fields k ≥ 2 then .error ("duplicate field " ++ k)
  else
    match getField fields k with
    | some .null => .ok none
    | some j => (d j).map some
    | none => .ok none

/-- Decode a `#[serde(default)]` struct field: missing gives the default. -/
def defField (fields : List (String × Json)) (k : String)
    (d : Json → Except String α) (dflt : α) : Except String α :=
  if countKey fields k ≥ 2 then .error ("duplicate field " ++ k)
  else
    match getField fields k with
    | some j => d j
    | none => .ok dflt

def decodeString : Json → Except String String
  | .str s => .ok s
  | _ => .error "invalid type: expected a string"

def decodeBool : Json → Except String Bool
  | .bool b => .ok b
  | _ => .error "invalid type: expected a boolean"

/-- Decode an `f64`/`f32`: any JSON number is accepted. -/
def decodeRat : Json → Except String Rat
  | .num q => .ok q
  | _ => .error "invalid type: expected a float"

/-- Decode an unsigned integer of the given exclusive bound (u8/u32/u64/usize):
the number must be integral, nonnegative and in range. -/
def decodeUInt (bound : Nat) : Json → Except String Nat
  | .num q =>
      if q.den = 1 ∧ 0 ≤ q.num ∧ q.num.toNat < bound then .ok q.num.toNat
      else .error "invalid value: expected an unsigned integer in range"
  | _ => .error "invalid type: expected an integer"

/-- Decode a signed integer in `[lo, hi)` (i32/i64). -/
def decodeSInt (lo hi : Int) : Json → Except String Int
  | .num q =>
      if q.den = 1 ∧ lo ≤ q.num ∧ q.num < hi then .ok q.num
      else .error "invalid value: expected a signed integer in range"
  | _ => .error "invalid type: expected an integer"

/-- Sequentially decode the elements of a JSON array (the serde sequence
visitor stops at the first failing element). -/
def mapDecode (d : Json → Except String α) : List Json → Except String (List α)
  | [] => .ok []
  | j :: rest => do
      let a ← d j
      let as ← mapDecode d rest
      return a :: as

/-- Decode a JSON array elementwise. -/
def decodeList (d : Json → Except String α) : Json → Except String (List α)
  | .arr xs => mapDecode d xs
  | _ => .error "invalid type: expected a sequence"

/-- Sequentially decode the values of object entries as numbers. -/
def mapDecodeEntries : List (String × Json) → Except String (List (String × Rat))
  | [] => .ok []
  | (k, j) :: rest => do
      let q ← decodeRat j
      let qs ← mapDecodeEntries rest
      return (k, q) :: qs

/-- Decode a `HashMap<String, f64>` (or f32). -/
def decodeRatMap : Json → Except String (List (String × Rat))
  | .obj fs => mapDecodeEntries fs
  | _ => .error "invalid type: expected a map"

/-- Decode a `HashMap<String, Value>`. -/
def decodeJsonMap : Json → Except String (List (String × Json))
  | .obj fs => .ok fs
  | _ => .error "invalid type: expected a map"

/-- Split off the internally tagged "Type" entry: the first "Type" entry is
the tag (it must be a string) and every other entry, in order, is content —
exactly the behavior of serde's tagged-content visitor. -/
def splitTag : List (String × Json) → Except String (String × List (String × Json))
  | [] => .error "missing field Type"
  | (k, v) :: rest =>
      if k = "Type" then
        match v with
        | .str t => .ok (t, rest)
        | _ => .error "invalid type: tag must be a string"
      else
        match splitTag rest with
        | .ok (t, fs) => .ok (t, (k, v) :: fs)
        | .error e => .error e

/-- The flatten visitor of `Action::Parameterized`: scan the entries in order;
the "Type" entry fills `action_type` (a second one is a duplicate-field
error) and every other entry is collected, in order, into the open map. -/
def paramScan : List (String × Json) → Option String → List (String × Json) →
    Except String (String × List (String × Json))
  | [], none, _ => .error "missing field Type"
  | [], some t, acc => .ok (t, acc)
  | (k, v) :: rest, tOpt, acc =>
      if k = "Type" then
        match tOpt with
        | some _ => .error "duplicate field Type"
        | none =>
            match v with
            | .str t => paramScan rest (some t) acc
            | _ => .error "invalid type: expected a string"
      else paramScan rest tOpt (acc ++ [(k, v)])

/-- Model of `Observation` deserialization (untagged, tried in declaration order
Structured, Vector, Custom); `Custom` accepts anything, so it never fails. -/
def Observation.fromJson (j : Json) : Observation :=
  match j with
  | .obj fs => .Structured fs
  | _ =>
      match decodeList decodeRat j with
      | .ok xs => .Vector xs
      | .error _ => .Custom j

/-- Model of `Action` deserialization (untagged, tried in declaration order Discrete,
Continuous, Parameterized, Wait). -/
def Action.fromJson (j : Json) : Except String Action :=
  match decodeSInt (-9223372036854775808) 9223372036854775808 j with
  | .ok n => .ok (.Discrete n)
  | .error _ =>
      match decodeList decodeRat j with
      | .ok xs => .ok (.Continuous xs)
      | .error _ =>
          match j with
          | .obj fs =>
              match paramScan fs none [] with
              | .ok (t, ps) => .ok (.Parameterized t ps)
              | .error _ =>
                  match j with
                  | .null => .ok .Wait
                  | _ => .error "data did not match any variant of untagged enum Action"
          | .null => .ok .Wait
          | _ => .error "data did not match any variant of untagged enum Action"

def AgentType.fromJson : Json → Except String AgentType
  | .str s =>
      if s = "EntityBehavior" then .ok .EntityBehavior
      else if s = "Player" then .ok .Player
      else if s = "StrategyController" then .ok .StrategyController
      else if s = "ColonyManager" then .ok .ColonyManager
      else if s = "WorldSimulation" then .ok .WorldSimulation
      else if s = "GameMaster" then .ok .GameMaster
      else if s = "DialogueAgent" then .ok .DialogueAgent
      else if s = "CombatDirector" then .ok .CombatDirector
      else .error "unknown variant of AgentType"
  | .obj [(k, v)] =>
      if k = "Custom" then (decodeString v).map .Custom
      else .error "unknown variant of AgentType"
  | _ => .error "invalid type: expected AgentType"

def GameCapabilities.fromFields (fs : List (String × Json)) :
    Except String GameCapabilities := do
  let multi_agent ← reqField fs "MultiAgent" decodeBool
  let max_agents ← reqField fs "MaxAgents" (decodeUInt 18446744073709551616)
  let deterministic ← reqField fs "Deterministic" decodeBool
  let headless ← reqField fs "Headless" decodeBool
  return { multi_agent := multi_agent, max_agents := max_agents,
           deterministic := deterministic, headless := headless }

def GameEvent.fromJson : Json → Except String GameEvent
  | .obj fs => do
      let event_type ← reqField fs "type" decodeString
      let tick ← reqField fs "tick" (decodeUInt 18446744073709551616)
      let severity ← defField fs "severity" (decodeUInt 256) 0
      let details ← defField fs "details" (fun j => .ok j) Json.null
      return { event_type := event_type, tick := tick, severity := severity,
               details := details }
  | _ => .error "invalid type: expected GameEvent"

def StepResultPayload.fromFields (fs : List (String × Json)) :
    Except String StepResultPayload := do
  let agent_id ← reqField fs "AgentId" decodeString
  let observation ← reqField fs "Observation" (fun j => .ok (Observation.fromJson j))
  let reward ← reqField fs "Reward" decodeRat
  let reward_components ← defField fs "RewardComponents" decodeRatMap []
  let done ← reqField fs "Done" decodeBool
  let truncated ← reqField fs "Truncated" decodeBool
  let state_hash ← optField fs "StateHash" decodeString
  return { agent_id := agent_id, observation := observation, reward := reward,
           reward_components := reward_components, done := done,
           truncated := truncated, state_hash := state_hash }

def StepResultPayload.fromJson : Json → Except String StepResultPayload
  | .obj fs => StepResultPayload.fromFields fs
  | _ => .error "invalid type: expected StepResultPayload"

def PixelFormat.fromJson : Json → Except String PixelFormat
  | .str s =>
      if s = "rgba8" then .ok .Rgba8
      else if s = "bgra8" then .ok .Bgra8
      else if s = "rgb8" then .ok .Rgb8
      else if s = "r32f" then .ok .R32f
      else if s = "rg32f" then .ok .Rg32f
      else .error "unknown variant of PixelFormat"
  | _ => .error "invalid type: expected PixelFormat"

def StreamTransport.fromJson : Json → Except String StreamTransport
  | .obj fs => do
      let (t, content) ← splitTag fs
      if t = "IOSurface" then do
        let ids ← reqField content "surface_ids"
          (decodeList (decodeUInt 18446744073709551616))
        return .IOSurface ids
      else if t = "Shm" then do
        let shm_name ← reqField content "shm_name" decodeString
        let offsets ← reqField content "offsets"
          (decodeList (decodeUInt 18446744073709551616))
        return .Shm shm_name offsets
      else if t = "Dxgi" then do
        let handles ← reqField content "shared_handles"
          (decodeList (decodeUInt 18446744073709551616))
        return .Dxgi handles
      else if t = "Inline" then return .Inline
      else .error "unknown variant of StreamTransport"
  | _ => .error "invalid type: expected StreamTransport"

def StreamSync.fromJson : Json → Except String StreamSync
  | .obj fs => do
      let (t, content) ← splitTag fs
      if t = "MetalEvent" then do
        let handle ← reqField content "handle" (decodeUInt 18446744073709551616)
        return .MetalEvent handle
      else if t = "D3dFence" then do
        let handle ← reqField content "handle" (decodeUInt 18446744073709551616)
        return .D3dFence handle
      else if t = "Semaphore" then do
        let name ← reqField content "name" decodeString
        return .Semaphore name
      else if t = "Polling" then return .Polling
      else .error "unknown variant of StreamSync"
  | _ => .error "invalid type: expected StreamSync"

def StreamDescriptor.fromJson : Json → Except String StreamDescriptor
  | .obj fs => do
      let stream_id ← reqField fs "StreamId" decodeString
      let width ← reqField fs "Width" (decodeUInt 4294967296)
      let height ← reqField fs "Height" (decodeUInt 4294967296)
      let pixel_format ← reqField fs "PixelFormat" PixelFormat.fromJson
      let ring_count ← reqField fs "RingCount" (decodeUInt 4294967296)
      let transport ← reqField fs "Transport" StreamTransport.fromJson
      let sync ← optField fs "Sync" StreamSync.fromJson
      return { stream_id := stream_id, width := width, height := height,
               pixel_format := pixel_format, ring_count := ring_count,
               transport := transport, sync := sync }
  | _ => .error "invalid type: expected StreamDescriptor"

def RewardShaping.fromJson : Json → Except String RewardShaping
  | .obj fs => do
      let components ← reqField fs "Components" (decodeList decodeString)
      let weights ← defField fs "Weights" decodeRatMap []
      return { components := components, weights := weights }
  | _ => .error "invalid type: expected RewardShaping"

def AgentConfig.fromFields (fs : List (String × Json)) :
    Except String AgentConfig := do
  let entity_id ← optField fs "EntityId" decodeString
  let observation_profile ← defField fs "ObservationProfile" decodeString "default"
  let action_mask ← defField fs "ActionMask" (decodeList decodeString) []
  let reward_shaping ← optField fs "RewardShaping" RewardShaping.fromJson
  let extra ← defField fs "Extra" decodeJsonMap []
  return { entity_id := entity_id, observation_profile := observation_profile,
           action_mask := action_mask, reward_shaping := reward_shaping,
           extra := extra }

/-- Model of `deserialize` from `game-bridge/src/protocol.rs`, at the JSON value level:
extract the "Type" tag, then decode the matching variant's fields from the
remaining content (unknown fields are ignored, duplicates of a known field
are an error, as in the derived serde visitors). -/
def deserialize (j : Json) : Except String GameMessage :=
  match j with
  | .obj allFields =>
      match splitTag allFields with
      | .error e => .error e
      | .ok (t, fs) =>
          if t = "Ready" then do
            let name ← reqField fs "Name" decodeString
            let version ← reqField fs "Version" decodeString
            let capabilities ← reqField fs "Capabilities"
              (fun j => match j with
                        | .obj cfs => GameCapabilities.fromFields cfs
                        | _ => .error "invalid type: expected GameCapabilities")
            return .Ready name version capabilities
          else if t = "StateUpdate" then do
            let tick ← reqField fs "Tick" (decodeUInt 18446744073709551616)
            let state ← reqField fs "State" (fun j => .ok j)
            let events ← reqField fs "Events" (decodeList GameEvent.fromJson)
            return .StateUpdate tick state events
          else if t = "AgentRegistered" then do
            let agent_id ← reqField fs "AgentId" decodeString
            let observation_space ← reqField fs "ObservationSpace" (fun j => .ok j)
            let action_space ← reqField fs "ActionSpace" (fun j => .ok j)
            return .AgentRegistered agent_id observation_space action_space
          else if t = "StepResult" then do
            let result ← StepResultPayload.fromFields fs
            return .StepResult result
          else if t = "BatchStepResult" then do
            let results ← reqField fs "Results" (decodeList StepResultPayload.fromJson)
            return .BatchStepResult results
          else if t = "ResetComplete" then do
            let observation ← reqField fs "Observation"
              (fun j => .ok (Observation.fromJson j))
            let state_hash ← optField fs "StateHash" decodeString
            return .ResetComplete observation state_hash
          else if t = "StateHash" then do
            let hash ← reqField fs "Hash" decodeString
            return .StateHash hash
          else if t = "StreamsConfigured" then do
            let agent_id ← reqField fs "AgentId" decodeString
            let descriptors ← reqField fs "Descriptors"
              (decodeList StreamDescriptor.fromJson)
            return .StreamsConfigured agent_id descriptors
          else if t = "Error" then do
            let code ← reqField fs "Code" (decodeSInt (-2147483648) 2147483648)
            let message ← reqField fs "Message" decodeString
            return .Error code message
          else if t = "RegisterAgent" then do
            let agent_id ← reqField fs "AgentId" decodeString
            let agent_type ← reqField fs "AgentType" AgentType.fromJson
            let config ← reqField fs "Config"
              (fun j => match j with
                        | .obj cfs => AgentConfig.fromFields cfs
                        | _ => .error "invalid type: expected AgentConfig")
            return .RegisterAgent agent_id agent_type config
          else if t = "DeregisterAgent" then do
            let agent_id ← reqField fs "AgentId" decodeString
            return .DeregisterAgent agent_id
          else if t = "ExecuteAction" then do
            let agent_id ← reqField fs "AgentId" decodeString
            let action ← reqField fs "Action" Action.fromJson
            let ticks ← reqField fs "Ticks" (decodeUInt 4294967296)
            return .ExecuteAction agent_id action ticks
          else if t = "Reset" then do
            let seed ← optField fs "Seed" (decodeUInt 18446744073709551616)
            let scenario ← optField fs "Scenario" decodeString
            return .Reset seed scenario
          else if t = "GetStateHash" then .ok .GetStateHash
          else if t = "ConfigureStreams" then do
            let agent_id ← reqField fs "AgentId" decodeString
            let profile ← reqField fs "Profile" decodeString
            return .ConfigureStreams agent_id profile
          else if t = "Shutdown" then .ok .Shutdown
          else .error ("unknown variant " ++ t)
  | _ => .error "invalid type: expected a map"

/- ===================== Envelope well-formedness ===================== -/

/-- No two entries of an association list share a key (a Rust `HashMap`
value never does). -/
def noDupKeys : List (String × α) → Bool
  | [] => true
  | (k, _) :: rest => !(rest.any (fun p => p.1 = k)) && noDupKeys rest

/-- Whether a JSON value is an object. -/
def Json.isObjB : Json → Bool
  | .obj _ => true
  | _ => false

/-- Whether a JSON value is an array whose elements are all numbers. -/
def Json.isNumArrB : Json → Bool
  | .arr xs => xs.all (fun e => match e with | .num _ => true | _ => false)
  | _ => false

/-- A well-formed `Action` models a Rust value: `Discrete` holds an `i64`, and
a `Parameterized` parameter map has distinct keys none of which is "Type"
(the flattened tag field). -/
def Action.wfB : Action → Bool
  | .Discrete n => decide (-9223372036854775808 ≤ n ∧ n < 9223372036854775808)
  | .Continuous _ => true
  | .Parameterized _ params =>
      noDupKeys params && !(params.any (fun p => p.1 = "Type"))
  | .Wait => true

/-- A canonical `Observation`: `Custom` is not used for a value that the
untagged decoder would claim for `Structured` or `Vector`. -/
def Observation.wfB : Observation → Bool
  | .Structured fields => noDupKeys fields
  | .Vector _ => true
  | .Custom v => !v.isObjB && !v.isNumArrB

def GameCapabilities.wfB (c : GameCapabilities) : Bool :=
  decide (c.max_agents < 18446744073709551616)

def GameEvent.wfB (e : GameEvent) : Bool :=
  decide (e.tick < 18446744073709551616) && decide (e.severity < 256)

def StepResultPayload.wfB (p : StepResultPayload) : Bool :=
  p.observation.wfB && noDupKeys p.reward_components

def StreamTransport.wfB : StreamTransport → Bool
  | .IOSurface ids => ids.all (fun n => decide (n < 18446744073709551616))
  | .Shm _ offsets => offsets.all (fun n => decide (n < 18446744073709551616))
  | .Dxgi handles => handles.all (fun n => decide (n < 18446744073709551616))
  | .Inline => true

def StreamSync.wfB : StreamSync → Bool
  | .MetalEvent handle => decide (handle < 18446744073709551616)
  | .D3dFence handle => decide (handle < 18446744073709551616)
  | .Semaphore _ => true
  | .Polling => true

def StreamDescriptor.wfB (d : StreamDescriptor) : Bool :=
  decide (d.width < 4294967296) && decide (d.height < 4294967296) &&
    decide (d.ring_count < 4294967296) && d.transport.wfB &&
    (match d.sync with
     | some s => s.wfB
     | none => true)

def RewardShaping.wfB (r : RewardShaping) : Bool :=
  noDupKeys r.weights

def AgentConfig.wfB (c : AgentConfig) : Bool :=
  noDupKeys c.extra &&
    (match c.reward_shaping with
     | some r => r.wfB
     | none => true)

/-- A well-formed `GameMessage` models a Rust value of the envelope type:
machine integers are in range, maps have distinct keys, parameter maps avoid
the flattened "Type" key, and observations are canonical. -/
def GameMessage.wfB : GameMessage → Bool
  | .Ready _ _ capabilities => capabilities.wfB
  | .StateUpdate tick _ events =>
      decide (tick < 18446744073709551616) && events.all GameEvent.wfB
  | .AgentRegistered _ _ _ => true
  | .StepResult result => result.wfB
  | .BatchStepResult results => results.all StepResultPayload.wfB
  | .ResetComplete observation _ => observation.wfB
  | .StateHash _ => true
  | .StreamsConfigured _ descriptors => descriptors.all StreamDescriptor.wfB
  | .Error code _ => decide (-2147483648 ≤ code ∧ code < 2147483648)
  | .RegisterAgent _ _ config => config.wfB
  | .DeregisterAgent _ => true
  | .ExecuteAction _ action ticks => action.wfB && decide (ticks < 4294967296)
  | .Reset seed _ =>
      (match seed with
       | some n => decide (n < 18446744073709551616)
       | none => true)
  | .GetStateHash => true
  | .ConfigureStreams _ _ => true
  | .Shutdown => true

/- ============ Reader/demultiplexer task (transport.rs, ipc.rs) ============ -/

/-- One event the `reader_task` select loop can observe: a new
(request, reply-sender) pair on `request_rx` (the oneshot sender abstracted
by a slot number), a successfully read and decoded message, a message whose
decode failed, a read failure, or closure of the request channel. -/
inductive ReaderEvent where
  | request (slot : Nat)
  | message (msg : GameMessage)
  | badMessage (err : String)
  | readFailure
  | channelClosed

/-- One observable effect of a `reader_task` iteration. -/
inductive ReaderOutput where
  | reply (slot : Nat) (msg : GameMessage)
  | replyError (slot : Nat) (e : GameRLError)
  | broadcast (tick : Nat) (state : Json) (events : List GameEvent)
  | droppedReply (msg : GameMessage)

/-- Model of `reader_task` private state: the `pending: Vec<oneshot::Sender<..>>`
(front of the list = index 0 of the Vec) and whether the loop has exited. -/
structure ReaderState where
  pending : List Nat
  exited : Bool

/-- One iteration of the `reader_task` loop, from both
`game-bridge/src/transport.rs` and `harmony-bridge/src/ipc.rs` (the two are
line-for-line identical): a new request is `pending.push(response_tx)`; a
decoded `StateUpdate` is broadcast; any other decoded message is delivered to
`pending.pop()` — the LAST element of the Vec; a decode failure is delivered
as a `SerializationError` to `pending.pop()`; a read failure drains every
pending sender front-to-back with `IpcError("Connection lost")` and exits. -/
def readerStep (s : ReaderState) (e : ReaderEvent) : ReaderState × List ReaderOutput :=
  if s.exited then (s, [])
  else
    match e with
    | .request slot => ({ s with pending := s.pending ++ [slot] }, [])
    | .message m =>
        match m with
        | .StateUpdate tick state events => (s, [.broadcast tick state events])
        | _ =>
            match s.pending.getLast? with
            | some slot => ({ s with pending := s.pending.dropLast }, [.reply slot m])
            | none => (s, [.droppedReply m])
    | .badMessage err =>
        match s.pending.getLast? with
        | some slot =>
            ({ s with pending := s.pending.dropLast },
             [.replyError slot (.SerializationError err)])
        | none => (s, [])
    | .readFailure =>
        ({ pending := [], exited := true },
         s.pending.map (fun slot => .replyError slot (.IpcError "Connection lost")))
    | .channelClosed => ({ s with exited := true }, [])

/-- Run the reader task over a sequence of events, collecting outputs. -/
def readerRun (s : ReaderState) : List ReaderEvent → ReaderState × List ReaderOutput
  | [] => (s, [])
  | e :: rest =>
      let (s', out) := readerStep s e
      let (s'', outs) := readerRun s' rest
      (s'', out ++ outs)

/- ============ Bridge client request path (HarmonyBridge::request) ============ -/

/-- The externally visible steps of `HarmonyBridge::request`. -/
inductive RequestStep where
  | serializeMsg
  | writeWire
  | registerSlot
  | awaitSlot
deriving DecidableEq, Repr

/-- The step trace of `HarmonyBridge::request` as written in
`harmony-bridge/src/ipc.rs`: serialize the message; under the writer lock,
fail if not connected, else write the bytes to the transport; only then
create the oneshot channel and send the pending slot to the reader task;
finally await the slot.  Each flag tells whether the corresponding fallible
operation succeeds; a failure returns early, truncating the trace. -/
def requestSteps (serOk connected writeOk channelOk : Bool) : List RequestStep :=
  if !serOk then [.serializeMsg]
  else if !connected then [.serializeMsg]
  else if !writeOk then [.serializeMsg, .writeWire]
  else if !channelOk then [.serializeMsg, .writeWire, .registerSlot]
  else [.serializeMsg, .writeWire, .registerSlot, .awaitSlot]

/- ============ Framed transports (tcp.rs, unix.rs, ipc.rs wrappers) ============ -/

/-- The 64 MiB size ceiling of the game-bridge framed transports. -/
def MAX_FRAME : Nat := 64 * 1024 * 1024

/-- Little-endian u32 of the 4 prefix bytes. -/
def framePfxLen (b0 b1 b2 b3 : Nat) : Nat :=
  b0 + 256 * b1 + 65536 * b2 + 16777216 * b3

/-- Model of `TcpReadWrapper::read_message` from `game-bridge/src/tcp.rs` over a byte
stream: read the 4-byte little-endian length, reject lengths over 64 MiB
before touching the payload, then read exactly that many payload bytes. -/
def tcp_read_message (stream : List Nat) : Except GameRLError (List Nat) :=
  match stream with
  | b0 :: b1 :: b2 :: b3 :: rest =>
      let len := framePfxLen b0 b1 b2 b3
      if len > 64 * 1024 * 1024 then
        .error (.IpcError ("Message too large: " ++ toString len ++ " bytes"))
      else if rest.length < len then
        .error (.IpcError "TCP read data failed: early eof")
      else .ok (rest.take len)
  | _ => .error (.IpcError "TCP read length failed: early eof")

/-- Model of `UnixReadWrapper::read_message` from `game-bridge/src/unix.rs`: identical
to the TCP wrapper, including the 64 MiB ceiling. -/
def unix_read_message (stream : List Nat) : Except GameRLError (List Nat) :=
  match stream with
  | b0 :: b1 :: b2 :: b3 :: rest =>
      let len := framePfxLen b0 b1 b2 b3
      if len > 64 * 1024 * 1024 then
        .error (.IpcError ("Message too large: " ++ toString len ++ " bytes"))
      else if rest.length < len then
        .error (.IpcError "Unix read data failed: early eof")
      else .ok (rest.take len)
  | _ => .error (.IpcError "Unix read length failed: early eof")

/-- Model of `UnixReadWrapper::read_message` from `harmony-bridge/src/ipc.rs`: reads
the 4-byte little-endian length and then the payload, with no size check. -/
def harmony_read_message (stream : List Nat) : Except GameRLError (List Nat) :=
  match stream with
  | b0 :: b1 :: b2 :: b3 :: rest =>
      let len := framePfxLen b0 b1 b2 b3
      if rest.length < len then
        .error (.IpcError "Read data failed: early eof")
      else .ok (rest.take len)
  | _ => .error (.IpcError "Read length failed: early eof")

/- ============ Observation poller (factorio-bridge/src/observer.rs) ============ -/

/-- Model of `ResearchState` (observer.rs). -/
structure ResearchState where
  current : Option String
  progress : Rat
  completed : Json
  researched_count : Nat
  queue : Json

/-- Model of `PowerState` (observer.rs). -/
structure PowerState where
  production : Rat
  consumption : Rat
  satisfaction : Rat

/-- Model of `PollutionState` (observer.rs). -/
structure PollutionState where
  total : Rat
  rate : Rat

/-- Model of `ProductionStats` (observer.rs). -/
structure ProductionStats where
  items_produced : List (String × Rat)
  items_consumed : List (String × Rat)
  fluids_produced : List (String × Rat)
  api_errors : Json

/-- Model of `GlobalState` (observer.rs). -/
structure GlobalState where
  research : Option ResearchState
  power : Option PowerState
  pollution : Option PollutionState
  evolution_factor : Rat
  production : Option ProductionStats

/-- Model of `Position` (observer.rs). -/
structure Position where
  x : Rat
  y : Rat

/-- Model of `EnemyState` (observer.rs). -/
structure EnemyState where
  enemy_type : String
  position : Position
  health : Rat

/-- Model of `EntityState` (observer.rs). -/
structure EntityState where
  id : Nat
  entity_type : String
  name : String
  position : Position
  direction : Nat
  health : Option Rat
  recipe : Option String
  crafting_progress : Option Rat
  energy : Option Rat
  inventory : Option (List (String × Rat))

/-- Model of `Bounds` (observer.rs). -/
structure Bounds where
  x_min : Rat
  y_min : Rat
  x_max : Rat
  y_max : Rat

/-- Model of `AgentObservation` (observer.rs). -/
structure AgentObservation where
  bounds : Option Bounds
  entities : List EntityState
  resources : List (String × Nat)
  enemies : List EnemyState
  reward_components : List (String × Rat)
  done : Bool
  reward : Rat

/-- Model of `ActionResult` (observer.rs). -/
structure ActionResult where
  success : Bool
  error : Option String
  action_type : Option String

/-- Model of `FactorioObservation` (observer.rs): the decoded observation file. -/
structure FactorioObservation where
  tick : Nat
  global : GlobalState
  agents : List (String × AgentObservation)
  state_hash : Option String
  action_result : Option ActionResult

/-- What one `fs::read_to_string` of the observation file yields, after the
decode attempt where one applies. -/
inductive ObsFileText where
  | empty
  | malformed (msg : String)
  | parsed (obs : FactorioObservation)

/-- Outcome of one read of the observation file. -/
inductive ObsFileRead where
  | notFound
  | ioError (msg : String)
  | fileContent (text : ObsFileText)

/-- Model of `ObservationReader::read_current`: nonempty content that decodes to an
observation is emitted iff its tick strictly exceeds `last_tick`, and only
then is `last_tick` advanced; an equal or smaller tick, an empty file and a
missing file all yield `Ok(None)`; a decode failure is a
`SerializationError` and any other read failure an `IpcError`.  Returns the
result together with the successor `last_tick`. -/
def read_current (last_tick : Nat) (r : ObsFileRead) :
    Except GameRLError (Option FactorioObservation) × Nat :=
  match r with
  | .fileContent (.malformed m) => (.error (.SerializationError m), last_tick)
  | .fileContent (.parsed obs) =>
      if obs.tick > last_tick then (.ok (some obs), obs.tick)
      else (.ok none, last_tick)
  | .fileContent .empty => (.ok none, last_tick)
  | .notFound => (.ok none, last_tick)
  | .ioError m => (.error (.IpcError ("Failed to read observation: " ++ m)), last_tick)

/-- Feed a sequence of file reads through `read_current`, collecting the
emitted observations. -/
def readSequence (last_tick : Nat) :
    List ObsFileRead → Nat × List FactorioObservation
  | [] => (last_tick, [])
  | r :: rest =>
      match read_current last_tick r with
      | (.ok (some obs), lt) =>
          let (lt', emitted) := readSequence lt rest
          (lt', obs :: emitted)
      | (_, lt) => readSequence lt rest

/-- An observation whose only distinguishing content is its tick. -/
def mkObs (t : Nat) : FactorioObservation :=
  { tick := t
    global := { research := none, power := none, pollution := none,
                evolution_factor := 0, production := none }
    agents := []
    state_hash := none
    action_result := none }

/- ======================= Theorems: registry ======================= -/

/-- Applying one registry operation preserves the capacity bound and leaves
the capacity itself unchanged. -/
theorem AgentRegistry.applyOp_preserves (r : AgentRegistry) (op : RegistryOp)
    (h : r.agents.length ≤ r.max_agents) :
    (r.applyOp op).agents.length ≤ (r.applyOp op).max_agents ∧
      (r.applyOp op).max_agents = r.max_agents := by
  cases op with
  | register id t =>
      by_cases hc : r.agents.length ≥ r.max_agents
      · simp [AgentRegistry.applyOp, AgentRegistry.register, hc, h]
      · by_cases hk : r.containsKey id
        · simp [AgentRegistry.applyOp, AgentRegistry.register, hc, hk, h]
        · simp [AgentRegistry.applyOp, AgentRegistry.register, hc, hk]
          omega
  | deregister id =>
      by_cases hk : r.containsKey id
      · constructor
        · simp only [AgentRegistry.applyOp, AgentRegistry.deregister, hk, if_true]
          exact le_trans (List.length_filter_le _ _) h
        · simp [AgentRegistry.applyOp, AgentRegistry.deregister, hk]
      · simp [AgentRegistry.applyOp, AgentRegistry.deregister, hk, h]
  | record_step id reward =>
      simp [AgentRegistry.applyOp, AgentRegistry.record_step, h]
  | set_status id st =>
      simp [AgentRegistry.applyOp, AgentRegistry.set_status, h]

/-- Applying any operation sequence preserves the capacity bound and the
capacity value. -/
theorem AgentRegistry.applyOps_preserves (ops : List RegistryOp)
    (r : AgentRegistry) (h : r.agents.length ≤ r.max_agents) :
    (r.applyOps ops).agents.length ≤ (r.applyOps ops).max_agents ∧
      (r.applyOps ops).max_agents = r.max_agents := by
  induction ops generalizing r with
  | nil => exact ⟨h, rfl⟩
  | cons op rest ih =>
      have h1 := AgentRegistry.applyOp_preserves r op h
      have h2 := ih (r.applyOp op) (h1.2 ▸ h1.1)
      exact ⟨h2.1, h2.2.trans h1.2⟩

/-- C10 (confirmed): for every registry created with `new(max_agents)` and
every sequence of register/deregister/record_step/set_status operations, the
number of stored entries never exceeds `max_agents`, so
`available_slots() = max_agents - count()` never underflows:
`available_slots + count` recovers `max_agents` exactly. -/
theorem C10_registry_never_exceeds_capacity (max : Nat) (ops : List RegistryOp) :
    ((AgentRegistry.new max).applyOps ops).agents.length ≤ max ∧
      ((AgentRegistry.new max).applyOps ops).available_slots +
        ((AgentRegistry.new max).applyOps ops).count = max := by
  have h := AgentRegistry.applyOps_preserves ops (AgentRegistry.new max)
    (by simp [AgentRegistry.new])
  have hmax : ((AgentRegistry.new max).applyOps ops).max_agents = max := h.2
  have hlen := h.1
  rw [hmax] at hlen
  refine ⟨hlen, ?_⟩
  simp only [AgentRegistry.available_slots, AgentRegistry.count, hmax]
  omega

/-- C2 counterexample: with `max_agents = 2` and "a", "b" registered, the
capacity test precedes the idempotency test, so re-registering the existing
id "a" does NOT return `Ok`: it fails with `CapacityExceeded`, refuting the
claim that register is a no-op success for a present id even at full
capacity. -/
theorem C2_reregister_at_capacity_fails_cex :
    regAB.containsKey "a" = true ∧
      regAB.register "a" .Player = .error .CapacityExceeded := by
  constructor
  · rfl
  · rfl

/-- C2 (amended): `register` returns `CapacityExceeded` whenever the entry
count has reached `max_agents`, regardless of whether the id is already
present; only below capacity is re-registering a present id a no-op success
(returning `Ok` with the registry unchanged). -/
theorem C2_register_idempotent_below_capacity (r : AgentRegistry) (id : String)
    (t : AgentType) :
    (r.agents.length ≥ r.max_agents → r.register id t = .error .CapacityExceeded) ∧
      (r.agents.length < r.max_agents → r.containsKey id = true →
        r.register id t = .ok r) := by
  constructor
  · intro h
    simp [AgentRegistry.register, h]
  · intro h hk
    have h' : ¬ r.agents.length ≥ r.max_agents := by omega
    simp [AgentRegistry.register, h', hk]

/-- C2 witness: the amended theorem applied at the concrete capacity
scenario (both conjuncts, at full and at spare capacity). -/
theorem C2_register_idempotent_below_capacity_witness :
    regAB.register "c" .Player = .error .CapacityExceeded ∧
      ((AgentRegistry.new 2).applyOp (.register "a" .Player)).register "a" .Player
        = .ok ((AgentRegistry.new 2).applyOp (.register "a" .Player)) := by
  constructor
  · exact (C2_register_idempotent_below_capacity regAB "c" .Player).1 (by decide)
  · exact (C2_register_idempotent_below_capacity _ "a" .Player).2 (by decide) (by decide)

/- ======================= Theorems: RCON client ======================= -/

/-- C3 counterexample: on an auth reply with `id == -1`, `connect` returns
`GameRLError::IpcError` — the transport/IPC failure kind (what the spec calls
ConnectionLost) — refuting the claim that the error is a distinct
`AuthenticationFailed` kind never equal to the transport/IPC kind; indeed
`GameRLError` has no `AuthenticationFailed` constructor at all. -/
theorem C3_auth_failure_is_ipc_error_cex :
    rcon_connect_auth { id := -1, packet_type := 2, body := [] } =
        .error (.IpcError "RCON authentication failed") ∧
      GameRLError.isIpcError (.IpcError "RCON authentication failed") = true := by
  exact ⟨rfl, rfl⟩

/-- C3 (amended): a first reply with `id == -1` makes `connect` fail with
`IpcError "RCON authentication failed"` — the same error kind used for
transport/IPC failures, distinguishable from them only by its message — and
in particular never with `ProtocolError`. -/
theorem C3_auth_failure_classification (p : RconPacket) (h : p.id = -1) :
    rcon_connect_auth p = .error (.IpcError "RCON authentication failed") ∧
      ∀ s, rcon_connect_auth p ≠ .error (.ProtocolError s) := by
  refine ⟨by simp [rcon_connect_auth, h], ?_⟩
  intro s
  simp [rcon_connect_auth, h]

/-- C3 witness: the amended theorem at the concrete `-1` reply. -/
theorem C3_auth_failure_classification_witness :
    rcon_connect_auth { id := -1, packet_type := 2, body := [] } =
      .error (.IpcError "RCON authentication failed") :=
  (C3_auth_failure_classification { id := -1, packet_type := 2, body := [] } rfl).1

/-- C8 (confirmed): `execute` calls `execute_inner` at most twice; it runs a
second time exactly when the first failure's message is connection-related
and the reconnect succeeded, and a non-connection-related failure is
returned to the caller after a single call with no reconnect attempt. -/
theorem C8_execute_retries_at_most_once (first : Except GameRLError String)
    (conn : Except GameRLError Unit) (second : Except GameRLError String) :
    ((rcon_execute first conn second).1.count .innerExec ≤ 2) ∧
      ((rcon_execute first conn second).1.count .innerExec = 2 →
        ∃ e, first = .error e ∧ isConnectionRelated e = true ∧ conn = .ok () ∧
          (rcon_execute first conn second).2 = second) ∧
      (∀ e, first = .error e → isConnectionRelated e = false →
        (rcon_execute first conn second).2 = .error e ∧
          (rcon_execute first conn second).1 = [.innerExec]) := by
  cases first with
  | ok s =>
      refine ⟨by simp [rcon_execute], by simp [rcon_execute], ?_⟩
      intro e he
      exact absurd he (by simp)
  | error e =>
      by_cases hc : isConnectionRelated e
      · cases conn with
        | ok u =>
            refine ⟨by simp [rcon_execute, hc], ?_, ?_⟩
            · intro _
              exact ⟨e, rfl, hc, rfl, by simp [rcon_execute, hc]⟩
            · intro e' he' hc'
              rw [Except.error.injEq] at he'
              subst he'
              simp [hc] at hc'
        | error ce =>
            refine ⟨by simp [rcon_execute, hc], ?_, ?_⟩
            · intro habs
              simp [rcon_execute, hc] at habs
            · intro e' he' hc'
              rw [Except.error.injEq] at he'
              subst he'
              simp [hc] at hc'
      · refine ⟨by simp [rcon_execute, hc], ?_, ?_⟩
        · intro habs
          simp [rcon_execute, hc] at habs
        · intro e' he' hc'
          rw [Except.error.injEq] at he'
          subst he'
          simp [rcon_execute, hc']

/-- C8 witness: a non-connection-related failure (`GameError`) is returned
unchanged after exactly one inner call. -/
theorem C8_execute_retries_at_most_once_witness :
    (rcon_execute (.error (.GameError "boom")) (.ok ()) (.ok "r")).2 =
        .error (.GameError "boom") ∧
      (rcon_execute (.error (.GameError "boom")) (.ok ()) (.ok "r")).1 =
        [.innerExec] :=
  (C8_execute_retries_at_most_once _ _ _).2.2 (.GameError "boom") rfl (by decide)

/- ======================= Theorems: observation poller ======================= -/

/-- C9 (confirmed): `read_current` emits a snapshot iff its tick strictly
exceeds the last emitted tick, advancing `last_tick` exactly then; an equal
or smaller tick yields `Ok(None)` with `last_tick` unchanged, never an
error.  For file contents with ticks [5, 5, 7, 6, 9] read in order from
last-seen 0, exactly the snapshots with ticks 5, 7, 9 are emitted and the
reader ends at last-seen 9. -/
theorem C9_tick_monotonic_poller :
    (∀ lt (obs : FactorioObservation),
      (obs.tick > lt →
        read_current lt (.fileContent (.parsed obs)) = (.ok (some obs), obs.tick)) ∧
      (obs.tick ≤ lt →
        read_current lt (.fileContent (.parsed obs)) = (.ok none, lt))) ∧
    ((readSequence 0
        ([5, 5, 7, 6, 9].map (fun t => .fileContent (.parsed (mkObs t))))).2 =
      [mkObs 5, mkObs 7, mkObs 9]) ∧
    ((readSequence 0
        ([5, 5, 7, 6, 9].map (fun t => .fileContent (.parsed (mkObs t))))).1 = 9) := by
  refine ⟨?_, rfl, rfl⟩
  intro lt obs
  constructor
  · intro h
    simp [read_current, h]
  · intro h
    have h' : ¬ obs.tick > lt := by omega
    simp [read_current, h']

/-- C9 witness: the iff applied at a fresh tick 5 over last-seen 0 and at a
regressed tick 5 over last-seen 7. -/
theorem C9_tick_monotonic_poller_witness :
    read_current 0 (.fileContent (.parsed (mkObs 5))) = (.ok (some (mkObs 5)), 5) ∧
      read_current 7 (.fileContent (.parsed (mkObs 5))) = (.ok none, 7) :=
  ⟨(C9_tick_monotonic_poller.1 0 (mkObs 5)).1 (by decide),
   (C9_tick_monotonic_poller.1 7 (mkObs 5)).2 (by decide)⟩

/- ======================= Theorems: framed transports ======================= -/

/-- C5 counterexample: the harmony-bridge `read_message` performs no size
check: on a frame whose prefix decodes to 67108865 (one over 64 MiB) it
reads and returns the oversized payload instead of erroring. -/
theorem C5_harmony_reads_oversized_frame_cex :
    harmony_read_message (1 :: 0 :: 0 :: 4 :: List.replicate 67108865 0) =
      .ok (List.replicate 67108865 0) := by
  have hlen : framePfxLen 1 0 0 4 = 67108865 := by norm_num [framePfxLen]
  simp only [harmony_read_message, hlen, List.length_replicate, lt_irrefl,
    if_false, List.take_replicate, Nat.min_self]

/-- C5 (amended): the TCP and game-bridge Unix `read_message` implementations
reject a length prefix over 64 MiB with an error, for every suffix of the
stream — in particular without reading any payload byte — while the
harmony-bridge Unix implementation performs no such check (see the
counterexample). -/
theorem C5_tcp_unix_reject_oversized_frame (b0 b1 b2 b3 : Nat) (rest : List Nat)
    (h : framePfxLen b0 b1 b2 b3 > 64 * 1024 * 1024) :
    tcp_read_message (b0 :: b1 :: b2 :: b3 :: rest) =
      .error (.IpcError ("Message too large: " ++
        toString (framePfxLen b0 b1 b2 b3) ++ " bytes")) ∧
    unix_read_message (b0 :: b1 :: b2 :: b3 :: rest) =
      .error (.IpcError ("Message too large: " ++
        toString (framePfxLen b0 b1 b2 b3) ++ " bytes")) := by
  constructor
  · simp [tcp_read_message, h]
  · simp [unix_read_message, h]

/-- C5 witness: the amended theorem at the 67108865-byte prefix with an empty
remainder (no payload present at all). -/
theorem C5_tcp_unix_reject_oversized_frame_witness :
    tcp_read_message [1, 0, 0, 4] =
      .error (.IpcError ("Message too large: " ++
        toString (framePfxLen 1 0 0 4) ++ " bytes")) ∧
    unix_read_message [1, 0, 0, 4] =
      .error (.IpcError ("Message too large: " ++
        toString (framePfxLen 1 0 0 4) ++ " bytes")) :=
  C5_tcp_unix_reject_oversized_frame 1 0 0 4 [] (by norm_num [framePfxLen])

/- ======================= Theorems: reader task, request path ======================= -/

/-- C1: evaluating the reader task at the failing input.  With pending slots
registered in order 1 then 2 on one connection, the first arriving non-push
message is delivered to slot 2 and the second to slot 1: `pending.pop()`
removes the NEWEST slot (the Vec's last element), so delivery is LIFO, not
the FIFO promised by the task's own comments and the spec. -/
theorem C1_reader_delivers_lifo :
    readerRun { pending := [], exited := false }
      [.request 1, .request 2,
       .message (.StateHash "h1"), .message (.StateHash "h2")] =
    ({ pending := [], exited := false },
     [.reply 2 (.StateHash "h1"), .reply 1 (.StateHash "h2")]) := by
  rfl

/-- C4: evaluating `HarmonyBridge::request` at the all-successful path: the
message bytes are written to the wire strictly BEFORE the pending slot is
sent to the reader task, contradicting the claimed
register-before-or-atomic-with-write ordering. -/
theorem C4_request_writes_before_registering_slot :
    requestSteps true true true true =
        [.serializeMsg, .writeWire, .registerSlot, .awaitSlot] ∧
      (requestSteps true true true true).indexOf RequestStep.writeWire <
        (requestSteps true true true true).indexOf RequestStep.registerSlot := by
  exact ⟨rfl, by decide⟩

/- ======================= Theorems: RCON packet codec ======================= -/

/-- Taking 4 from a 4-byte chunk followed by anything returns the chunk. -/
theorem take4_append (a r : List Nat) (h : a.length = 4) : (a ++ r).take 4 = a := by
  rw [← h, List.take_left]

/-- Dropping 4 past a 4-byte chunk returns the remainder. -/
theorem drop4_append (a r : List Nat) (h : a.length = 4) : (a ++ r).drop 4 = r := by
  rw [← h, List.drop_left]

/-- Specialization of `take4_append` to a little-endian `i32` chunk. -/
theorem take4_i32 (n : Int) (r : List Nat) :
    (i32ToLeBytes n ++ r).take 4 = i32ToLeBytes n :=
  take4_append (i32ToLeBytes n) r rfl

/-- Specialization of `drop4_append` to a little-endian `i32` chunk. -/
theorem drop4_i32 (n : Int) (r : List Nat) :
    (i32ToLeBytes n ++ r).drop 4 = r :=
  drop4_append (i32ToLeBytes n) r rfl

/-- Reading back the little-endian bytes of an `i32` recovers its unsigned
residue mod 2^32. -/
theorem leBytesToU32_i32ToLeBytes (n : Int) :
    leBytesToU32 (i32ToLeBytes n) = (n % 4294967296).toNat := by
  simp only [i32ToLeBytes, leBytesToU32]
  omega

/-- Two's-complement reinterpretation inverts the mod-2^32 encoding on the
`i32` range. -/
theorem u32ToI32_emod (n : Int) (h1 : -2147483648 ≤ n) (h2 : n < 2147483648) :
    u32ToI32 ((n % 4294967296).toNat) = n := by
  unfold u32ToI32
  split <;> omega

/-- The first zero byte of `body ++ [0, 0]` sits exactly at `body.length`
when the body itself contains no zero byte. -/
theorem findIdx_append_zeros (body : List Nat) (h : ¬ 0 ∈ body) :
    (body ++ [0, 0]).findIdx (fun b => b == 0) = body.length := by
  induction body with
  | nil => rfl
  | cons b bs ih =>
      simp only [List.mem_cons, not_or] at h
      rw [List.cons_append, List.findIdx_cons]
      have hb : (b == 0) = false := by
        rw [beq_eq_false_iff_ne]
        exact fun e => h.1 e.symm
      rw [hb, cond_false, ih h.2, List.length_cons]

/-- C7 counterexample: a packet whose body is the single NUL byte decodes to
an empty body (`from_bytes` truncates at the first zero byte), so decoding
does not recover the original body exactly for every body. -/
theorem C7_rcon_nul_body_cex :
    RconPacket.from_bytes
        ((RconPacket.to_bytes { id := 1, packet_type := 3, body := [0] }).drop 4) =
      .ok { id := 1, packet_type := 3, body := [] } ∧
      ({ id := 1, packet_type := 3, body := [] } : RconPacket) ≠
        { id := 1, packet_type := 3, body := [0] } := by
  constructor
  · rfl
  · decide

/-- C7 (amended): for every packet, the encoding is exactly
`4 + (8 + L + 2)` bytes with the size field holding `8 + L + 2`, and — for a
body containing no NUL byte — decoding the bytes after the size prefix
recovers the id, type and body exactly.  (The id/type range conditions state
that the fields are `i32`s, and the length bound that the size fits an
`i32`, as in the Rust types.) -/
theorem C7_rcon_packet_size_and_roundtrip (p : RconPacket)
    (hid1 : -2147483648 ≤ p.id) (hid2 : p.id < 2147483648)
    (hpt1 : -2147483648 ≤ p.packet_type) (hpt2 : p.packet_type < 2147483648)
    (hlen : p.body.length + 10 < 2147483648)
    (hbody : ¬ 0 ∈ p.body) :
    p.to_bytes.length = 4 + (8 + p.body.length + 2) ∧
      leBytesToU32 (p.to_bytes.take 4) = 8 + p.body.length + 2 ∧
      RconPacket.from_bytes (p.to_bytes.drop 4) = .ok p := by
  have hassoc : p.to_bytes =
      i32ToLeBytes ((4 + 4 + p.body.length + 2 : Nat) : Int) ++
        (i32ToLeBytes p.id ++ (i32ToLeBytes p.packet_type ++ (p.body ++ [0, 0]))) := by
    simp [RconPacket.to_bytes, List.append_assoc]
  refine ⟨?_, ?_, ?_⟩
  · rw [hassoc]
    simp [List.length_append, i32ToLeBytes]
    omega
  · rw [hassoc, take4_i32, leBytesToU32_i32ToLeBytes]
    omega
  · rw [hassoc, drop4_i32]
    have hlen10 : ¬ (i32ToLeBytes p.id ++
        (i32ToLeBytes p.packet_type ++ (p.body ++ [0, 0]))).length < 10 := by
      simp [List.length_append, i32ToLeBytes]
    have hdrop8 : (i32ToLeBytes p.id ++
        (i32ToLeBytes p.packet_type ++ (p.body ++ [0, 0]))).drop 8 = p.body ++ [0, 0] := by
      have h8 : (8 : Nat) = 4 + 4 := rfl
      rw [h8, ← List.drop_drop, drop4_i32, drop4_i32]
    rw [RconPacket.from_bytes, if_neg hlen10]
    simp only [take4_i32, drop4_i32, hdrop8, leBytesToU32_i32ToLeBytes,
      u32ToI32_emod _ hid1 hid2, u32ToI32_emod _ hpt1 hpt2,
      findIdx_append_zeros p.body hbody, List.take_left]

/-- C7 witness: the amended theorem at the auth packet with body bytes
"pw" = [112, 119]. -/
theorem C7_rcon_packet_size_and_roundtrip_witness :
    (RconPacket.to_bytes { id := 1, packet_type := 3, body := [112, 119] }).length =
        4 + (8 + 2 + 2) ∧
      leBytesToU32
        ((RconPacket.to_bytes { id := 1, packet_type := 3, body := [112, 119] }).take 4) =
        8 + 2 + 2 ∧
      RconPacket.from_bytes
        ((RconPacket.to_bytes { id := 1, packet_type := 3, body := [112, 119] }).drop 4) =
        .ok { id := 1, packet_type := 3, body := [112, 119] } :=
  C7_rcon_packet_size_and_roundtrip { id := 1, packet_type := 3, body := [112, 119] }
    (by decide) (by decide) (by decide) (by decide) (by decide) (by decide)

/- ======================= Theorems: envelope round trip ======================= -/

theorem countKey_nil (k : String) : countKey [] k = 0 := rfl

theorem getField_nil (k : String) : getField [] k = none := rfl

theorem countKey_cons (k' k : String) (v : Json) (fs : List (String × Json)) :
    countKey ((k', v) :: fs) k = (if k' = k then 1 else 0) + countKey fs k := by
  by_cases h : k' = k <;> simp [countKey, List.filter_cons, h, Nat.add_comm]

theorem getField_cons (k' k : String) (v : Json) (fs : List (String × Json)) :
    getField ((k', v) :: fs) k = if k' = k then some v else getField fs k := by
  by_cases h : k' = k <;> simp [getField, List.find?_cons, h]

theorem decodeUInt_natCast (bound n : Nat) (h : n < bound) :
    decodeUInt bound (.num (n : Rat)) = .ok n := by
  have hc : ((n : Rat)).den = 1 ∧ 0 ≤ ((n : Rat)).num ∧ ((n : Rat)).num.toNat < bound :=
    ⟨Rat.den_natCast n, by rw [Rat.num_natCast]; omega,
     by rw [Rat.num_natCast]; omega⟩
  show (if ((n : Rat)).den = 1 ∧ 0 ≤ ((n : Rat)).num ∧ ((n : Rat)).num.toNat < bound
        then Except.ok ((n : Rat)).num.toNat
        else Except.error "invalid value: expected an unsigned integer in range") = .ok n
  rw [if_pos hc, Rat.num_natCast]
  congr 1

theorem decodeSInt_intCast (lo hi n : Int) (h1 : lo ≤ n) (h2 : n < hi) :
    decodeSInt lo hi (.num (n : Rat)) = .ok n := by
  have hc : ((n : Rat)).den = 1 ∧ lo ≤ ((n : Rat)).num ∧ ((n : Rat)).num < hi :=
    ⟨Rat.den_intCast n, by rw [Rat.num_intCast]; exact h1,
     by rw [Rat.num_intCast]; exact h2⟩
  show (if ((n : Rat)).den = 1 ∧ lo ≤ ((n : Rat)).num ∧ ((n : Rat)).num < hi
        then Except.ok ((n : Rat)).num
        else Except.error "invalid value: expected a signed integer in range") = .ok n
  rw [if_pos hc, Rat.num_intCast]

theorem mapDecode_num_roundtrip (xs : List Rat) :
    mapDecode decodeRat (xs.map Json.num) = .ok xs := by
  induction xs with
  | nil => rfl
  | cons x rest ih =>
      simp [mapDecode, decodeRat, ih, Bind.bind, Except.bind, Pure.pure, Except.pure, Except.map]

theorem mapDecode_str_roundtrip (ss : List String) :
    mapDecode decodeString (ss.map Json.str) = .ok ss := by
  induction ss with
  | nil => rfl
  | cons s rest ih =>
      simp [mapDecode, decodeString, ih, Bind.bind, Except.bind, Pure.pure, Except.pure, Except.map]

theorem mapDecode_uint_roundtrip (bound : Nat) (ns : List Nat)
    (h : ∀ n ∈ ns, n < bound) :
    mapDecode (decodeUInt bound) (ns.map (fun n : Nat => Json.num (n : Rat))) = .ok ns := by
  induction ns with
  | nil => rfl
  | cons n rest ih =>
      have hn : n < bound := h n (List.mem_cons_self n rest)
      have hr := ih (fun m hm => h m (List.mem_cons_of_mem n hm))
      simp [mapDecode, decodeUInt_natCast bound n hn, hr,
        Bind.bind, Except.bind, Pure.pure, Except.pure, Except.map]

theorem mapDecodeEntries_roundtrip (m : List (String × Rat)) :
    mapDecodeEntries (m.map (fun p => (p.1, Json.num p.2))) = .ok m := by
  induction m with
  | nil => rfl
  | cons p rest ih =>
      simp [mapDecodeEntries, decodeRat, ih, Bind.bind, Except.bind, Pure.pure, Except.pure, Except.map]

theorem splitTag_cons (t : String) (fs : List (String × Json)) :
    splitTag (("Type", Json.str t) :: fs) = .ok (t, fs) := by
  simp [splitTag]

theorem paramScan_no_type (ps : List (String × Json)) (t : String)
    (h : ps.any (fun p => p.1 = "Type") = false) (acc : List (String × Json)) :
    paramScan ps (some t) acc = .ok (t, acc ++ ps) := by
  induction ps generalizing acc with
  | nil => simp [paramScan]
  | cons p rest ih =>
      obtain ⟨k, v⟩ := p
      simp only [List.any_cons, Bool.or_eq_false_iff, decide_eq_false_iff_not] at h
      rw [paramScan, if_neg h.1, ih h.2]
      simp

theorem mapDecode_rat_not_all_num (xs : List Json)
    (h : xs.all (fun e => match e with | .num _ => true | _ => false) = false) :
    ∃ e, mapDecode decodeRat xs = .error e := by
  induction xs with
  | nil => simp at h
  | cons x rest ih =>
      cases x with
      | num q =>
          simp only [List.all_cons] at h
          obtain ⟨e, he⟩ := ih (by simpa using h)
          exact ⟨e, by simp [mapDecode, decodeRat, he, Bind.bind, Except.bind]⟩
      | null => exact ⟨_, rfl⟩
      | bool b => exact ⟨_, rfl⟩
      | str s => exact ⟨_, rfl⟩
      | arr ys => exact ⟨_, rfl⟩
      | obj fs => exact ⟨_, rfl⟩

theorem observation_roundtrip (o : Observation) (h : o.wfB = true) :
    Observation.fromJson o.toJson = o := by
  cases o with
  | Structured fs => rfl
  | Vector xs =>
      simp [Observation.toJson, Observation.fromJson, decodeList, mapDecode_num_roundtrip]
  | Custom v =>
      simp only [Observation.wfB, Bool.and_eq_true, Bool.not_eq_true'] at h
      cases v with
      | null => rfl
      | bool b => rfl
      | num q => rfl
      | str s => rfl
      | obj fs => simp [Json.isObjB] at h
      | arr xs =>
          obtain ⟨e, he⟩ := mapDecode_rat_not_all_num xs (by simpa [Json.isNumArrB] using h.2)
          simp [Observation.toJson, Observation.fromJson, decodeList, he]

theorem action_roundtrip (a : Action) (h : a.wfB = true) :
    Action.fromJson a.toJson = .ok a := by
  cases a with
  | Discrete n =>
      simp only [Action.wfB, decide_eq_true_eq] at h
      simp [Action.toJson, Action.fromJson, decodeSInt_intCast _ _ n h.1 h.2]
  | Continuous xs =>
      simp [Action.toJson, Action.fromJson, decodeSInt, decodeList, mapDecode_num_roundtrip]
  | Parameterized t ps =>
      simp only [Action.wfB, Bool.and_eq_true, Bool.not_eq_true'] at h
      rw [Action.toJson, Action.fromJson]
      rw [paramScan, if_pos rfl]
      rw [paramScan_no_type ps t h.2 []]
      simp [decodeSInt, decodeList]
  | Wait => rfl

theorem agentType_roundtrip (t : AgentType) :
    AgentType.fromJson t.toJson = .ok t := by
  cases t <;> simp [AgentType.toJson, AgentType.fromJson, decodeString, Except.map]

theorem gameCapabilities_roundtrip (c : GameCapabilities) (h : c.wfB = true) :
    GameCapabilities.fromFields
      [("MultiAgent", .bool c.multi_agent), ("MaxAgents", .num (c.max_agents : Rat)),
       ("Deterministic", .bool c.deterministic), ("Headless", .bool c.headless)] = .ok c := by
  simp only [GameCapabilities.wfB, decide_eq_true_eq] at h
  simp [GameCapabilities.fromFields, reqField, countKey_cons, countKey_nil,
    getField_cons, getField_nil, decodeBool, decodeUInt_natCast _ _ h,
    Bind.bind, Except.bind, Pure.pure, Except.pure, Except.map]

theorem gameEvent_roundtrip (e : GameEvent) (h : e.wfB = true) :
    GameEvent.fromJson e.toJson = .ok e := by
  simp only [GameEvent.wfB, Bool.and_eq_true, decide_eq_true_eq] at h
  simp [GameEvent.toJson, GameEvent.fromJson, reqField, defField, countKey_cons,
    countKey_nil, getField_cons, getField_nil, decodeString,
    decodeUInt_natCast _ _ h.1, decodeUInt_natCast _ _ h.2,
    Bind.bind, Except.bind, Pure.pure, Except.pure, Except.map]

theorem mapDecode_gameEvent_roundtrip (es : List GameEvent)
    (h : es.all GameEvent.wfB = true) :
    mapDecode GameEvent.fromJson (es.map GameEvent.toJson) = .ok es := by
  induction es with
  | nil => rfl
  | cons e rest ih =>
      simp only [List.all_cons, Bool.and_eq_true] at h
      simp [mapDecode, gameEvent_roundtrip e h.1, ih h.2,
        Bind.bind, Except.bind, Pure.pure, Except.pure, Except.map]

theorem stepResultPayload_roundtrip (p : StepResultPayload) (h : p.wfB = true) :
    StepResultPayload.fromFields p.fieldsJson = .ok p := by
  simp only [StepResultPayload.wfB, Bool.and_eq_true] at h
  obtain ⟨agent_id, observation, reward, reward_components, done, truncated, sh⟩ := p
  cases sh with
  | none =>
      simp [StepResultPayload.fieldsJson, StepResultPayload.fromFields, reqField,
        optField, defField, countKey_cons, countKey_nil, getField_cons, getField_nil,
        decodeString, decodeBool, decodeRat, decodeRatMap, jsonOfRatMap,
        observation_roundtrip _ h.1, mapDecodeEntries_roundtrip,
        Bind.bind, Except.bind, Pure.pure, Except.pure, Except.map]
  | some s =>
      simp [StepResultPayload.fieldsJson, StepResultPayload.fromFields, reqField,
        optField, defField, countKey_cons, countKey_nil, getField_cons, getField_nil,
        decodeString, decodeBool, decodeRat, decodeRatMap, jsonOfRatMap,
        observation_roundtrip _ h.1, mapDecodeEntries_roundtrip,
        Bind.bind, Except.bind, Pure.pure, Except.pure, Except.map]

theorem mapDecode_payload_roundtrip (rs : List StepResultPayload)
    (h : rs.all StepResultPayload.wfB = true) :
    mapDecode StepResultPayload.fromJson (rs.map StepResultPayload.toJson) = .ok rs := by
  induction rs with
  | nil => rfl
  | cons p rest ih =>
      simp only [List.all_cons, Bool.and_eq_true] at h
      have hp : StepResultPayload.fromJson p.toJson = .ok p := by
        rw [StepResultPayload.toJson, StepResultPayload.fromJson]
        exact stepResultPayload_roundtrip p h.1
      simp [mapDecode, hp, ih h.2, Bind.bind, Except.bind, Pure.pure, Except.pure, Except.map]

theorem pixelFormat_roundtrip (f : PixelFormat) :
    PixelFormat.fromJson f.toJson = .ok f := by
  cases f <;> simp [PixelFormat.toJson, PixelFormat.fromJson]

theorem streamTransport_roundtrip (t : StreamTransport) (h : t.wfB = true) :
    StreamTransport.fromJson t.toJson = .ok t := by
  cases t with
  | IOSurface ids =>
      simp only [StreamTransport.wfB, List.all_eq_true, decide_eq_true_eq] at h
      simp [StreamTransport.toJson, StreamTransport.fromJson, splitTag_cons, reqField,
        countKey_cons, countKey_nil, getField_cons, getField_nil, decodeList,
        mapDecode_uint_roundtrip _ _ h, Bind.bind, Except.bind, Pure.pure, Except.pure, Except.map]
  | Shm name offsets =>
      simp only [StreamTransport.wfB, List.all_eq_true, decide_eq_true_eq] at h
      simp [StreamTransport.toJson, StreamTransport.fromJson, splitTag_cons, reqField,
        countKey_cons, countKey_nil, getField_cons, getField_nil, decodeList,
        decodeString, mapDecode_uint_roundtrip _ _ h,
        Bind.bind, Except.bind, Pure.pure, Except.pure, Except.map]
  | Dxgi handles =>
      simp only [StreamTransport.wfB, List.all_eq_true, decide_eq_true_eq] at h
      simp [StreamTransport.toJson, StreamTransport.fromJson, splitTag_cons, reqField,
        countKey_cons, countKey_nil, getField_cons, getField_nil, decodeList,
        mapDecode_uint_roundtrip _ _ h, Bind.bind, Except.bind, Pure.pure, Except.pure, Except.map]
  | Inline =>
      simp [StreamTransport.toJson, StreamTransport.fromJson, splitTag_cons,
        Bind.bind, Except.bind, Pure.pure, Except.pure]

theorem streamSync_roundtrip (s : StreamSync) (h : s.wfB = true) :
    StreamSync.fromJson s.toJson = .ok s := by
  cases s with
  | MetalEvent handle =>
      simp only [StreamSync.wfB, decide_eq_true_eq] at h
      simp [StreamSync.toJson, StreamSync.fromJson, splitTag_cons, reqField,
        countKey_cons, countKey_nil, getField_cons, getField_nil,
        decodeUInt_natCast _ _ h, Bind.bind, Except.bind, Pure.pure, Except.pure, Except.map]
  | D3dFence handle =>
      simp only [StreamSync.wfB, decide_eq_true_eq] at h
      simp [StreamSync.toJson, StreamSync.fromJson, splitTag_cons, reqField,
        countKey_cons, countKey_nil, getField_cons, getField_nil,
        decodeUInt_natCast _ _ h, Bind.bind, Except.bind, Pure.pure, Except.pure, Except.map]
  | Semaphore name =>
      simp [StreamSync.toJson, StreamSync.fromJson, splitTag_cons, reqField,
        countKey_cons, countKey_nil, getField_cons, getField_nil, decodeString,
        Bind.bind, Except.bind, Pure.pure, Except.pure, Except.map]
  | Polling =>
      simp [StreamSync.toJson, StreamSync.fromJson, splitTag_cons,
        Bind.bind, Except.bind, Pure.pure, Except.pure]

theorem streamDescriptor_roundtrip (d : StreamDescriptor) (h : d.wfB = true) :
    StreamDescriptor.fromJson d.toJson = .ok d := by
  obtain ⟨stream_id, width, height, pixel_format, ring_count, transport, sync⟩ := d
  simp only [StreamDescriptor.wfB, Bool.and_eq_true, decide_eq_true_eq] at h
  obtain ⟨⟨⟨⟨hw, hh⟩, hr⟩, ht⟩, hs⟩ := h
  cases sync with
  | none =>
      simp [StreamDescriptor.toJson, StreamDescriptor.fromJson, reqField, optField,
        countKey_cons, countKey_nil, getField_cons, getField_nil, decodeString,
        decodeUInt_natCast _ _ hw, decodeUInt_natCast _ _ hh, decodeUInt_natCast _ _ hr,
        pixelFormat_roundtrip, streamTransport_roundtrip _ ht,
        Bind.bind, Except.bind, Pure.pure, Except.pure, Except.map]
  | some s =>
      have hsync : StreamSync.fromJson s.toJson = .ok s := streamSync_roundtrip s hs
      have hnotnull : s.toJson ≠ Json.null := by
        cases s <;> simp [StreamSync.toJson]
      simp [StreamDescriptor.toJson, StreamDescriptor.fromJson, reqField, optField,
        countKey_cons, countKey_nil, getField_cons, getField_nil, decodeString,
        decodeUInt_natCast _ _ hw, decodeUInt_natCast _ _ hh, decodeUInt_natCast _ _ hr,
        pixelFormat_roundtrip, streamTransport_roundtrip _ ht, hsync,
        Bind.bind, Except.bind, Pure.pure, Except.pure, Except.map]

theorem mapDecode_descriptor_roundtrip (ds : List StreamDescriptor)
    (h : ds.all StreamDescriptor.wfB = true) :
    mapDecode StreamDescriptor.fromJson (ds.map StreamDescriptor.toJson) = .ok ds := by
  induction ds with
  | nil => rfl
  | cons d rest ih =>
      simp only [List.all_cons, Bool.and_eq_true] at h
      simp [mapDecode, streamDescriptor_roundtrip d h.1, ih h.2,
        Bind.bind, Except.bind, Pure.pure, Except.pure, Except.map]

theorem rewardShaping_roundtrip (r : RewardShaping) :
    RewardShaping.fromJson r.toJson = .ok r := by
  simp [RewardShaping.toJson, RewardShaping.fromJson, jsonOfRatMap, reqField, defField,
    countKey_cons, countKey_nil, getField_cons, getField_nil, decodeList,
    decodeRatMap, mapDecode_str_roundtrip, mapDecodeEntries_roundtrip,
    Bind.bind, Except.bind, Pure.pure, Except.pure, Except.map]

theorem agentConfig_roundtrip (c : AgentConfig) (h : c.wfB = true) :
    AgentConfig.fromFields c.fieldsJson = .ok c := by
  simp only [AgentConfig.wfB, Bool.and_eq_true] at h
  obtain ⟨entity_id, observation_profile, action_mask, reward_shaping, extra⟩ := c
  cases entity_id <;> cases reward_shaping <;>
    simp [AgentConfig.fieldsJson, AgentConfig.fromFields, RewardShaping.toJson,
      RewardShaping.fromJson, jsonOfRatMap, reqField, optField, defField,
      countKey_cons, countKey_nil, getField_cons, getField_nil, decodeString,
      decodeList, decodeJsonMap, decodeRatMap, mapDecode_str_roundtrip,
      mapDecodeEntries_roundtrip,
      Bind.bind, Except.bind, Pure.pure, Except.pure, Except.map]

/-- C6 counterexample: the envelope round trip fails as universally stated.
For `ResetComplete` carrying `Observation::Custom` of an (empty) JSON object,
decode succeeds but returns `Observation::Structured`: the untagged
`Observation` decoder tries `Structured` first, so the value is not equal to
the original. -/
theorem C6_custom_observation_roundtrip_cex :
    deserialize (serialize (.ResetComplete (.Custom (.obj [])) none)) =
        .ok (.ResetComplete (.Structured []) none) ∧
      GameMessage.ResetComplete (.Structured []) none ≠
        GameMessage.ResetComplete (.Custom (.obj [])) none := by
  constructor
  · rfl
  · intro he
    rw [GameMessage.ResetComplete.injEq] at he
    exact absurd he.1 (by simp)

/-- C6 (amended): `deserialize (serialize msg) = Ok msg` for every
well-formed envelope value — where well-formed (`wfB`) means: machine-integer
fields are in the range of their Rust types, map-modelled fields have
distinct keys, a `Parameterized` action's open parameter map does not use the
reserved flattened key "Type", and `Observation::Custom` is not used for a
value the untagged decoder assigns to `Structured` (any JSON object) or
`Vector` (any all-number array). -/
theorem C6_envelope_roundtrip (msg : GameMessage) (h : msg.wfB = true) :
    deserialize (serialize msg) = .ok msg := by
  cases msg with
  | Ready name version capabilities =>
      simp only [GameMessage.wfB] at h
      simp [serialize, deserialize, GameCapabilities.toJson, splitTag_cons, reqField,
        countKey_cons, countKey_nil, getField_cons, getField_nil, decodeString,
        gameCapabilities_roundtrip _ h,
        Bind.bind, Except.bind, Pure.pure, Except.pure, Except.map]
  | StateUpdate tick state events =>
      simp only [GameMessage.wfB, Bool.and_eq_true, decide_eq_true_eq] at h
      simp [serialize, deserialize, splitTag_cons, reqField, countKey_cons,
        countKey_nil, getField_cons, getField_nil, decodeList,
        decodeUInt_natCast _ _ h.1, mapDecode_gameEvent_roundtrip _ h.2,
        Bind.bind, Except.bind, Pure.pure, Except.pure, Except.map]
  | AgentRegistered agent_id observation_space action_space =>
      simp [serialize, deserialize, splitTag_cons, reqField, countKey_cons,
        countKey_nil, getField_cons, getField_nil, decodeString,
        Bind.bind, Except.bind, Pure.pure, Except.pure, Except.map]
  | StepResult result =>
      simp only [GameMessage.wfB] at h
      simp [serialize, deserialize, splitTag_cons,
        stepResultPayload_roundtrip _ h,
        Bind.bind, Except.bind, Pure.pure, Except.pure, Except.map]
  | BatchStepResult results =>
      simp only [GameMessage.wfB] at h
      simp [serialize, deserialize, splitTag_cons, reqField, countKey_cons,
        countKey_nil, getField_cons, getField_nil, decodeList,
        mapDecode_payload_roundtrip _ h,
        Bind.bind, Except.bind, Pure.pure, Except.pure, Except.map]
  | ResetComplete observation state_hash =>
      simp only [GameMessage.wfB] at h
      cases state_hash <;>
        simp [serialize, deserialize, splitTag_cons, reqField, optField,
          countKey_cons, countKey_nil, getField_cons, getField_nil, decodeString,
          jsonOfOptStr, observation_roundtrip _ h,
          Bind.bind, Except.bind, Pure.pure, Except.pure, Except.map]
  | StateHash hash =>
      simp [serialize, deserialize, splitTag_cons, reqField, countKey_cons,
        countKey_nil, getField_cons, getField_nil, decodeString,
        Bind.bind, Except.bind, Pure.pure, Except.pure, Except.map]
  | StreamsConfigured agent_id descriptors =>
      simp only [GameMessage.wfB] at h
      simp [serialize, deserialize, splitTag_cons, reqField, countKey_cons,
        countKey_nil, getField_cons, getField_nil, decodeString, decodeList,
        mapDecode_descriptor_roundtrip _ h,
        Bind.bind, Except.bind, Pure.pure, Except.pure, Except.map]
  | Error code message =>
      simp only [GameMessage.wfB, decide_eq_true_eq] at h
      simp [serialize, deserialize, splitTag_cons, reqField, countKey_cons,
        countKey_nil, getField_cons, getField_nil, decodeString,
        decodeSInt_intCast _ _ _ h.1 h.2,
        Bind.bind, Except.bind, Pure.pure, Except.pure, Except.map]
  | RegisterAgent agent_id agent_type config =>
      simp only [GameMessage.wfB] at h
      simp [serialize, deserialize, splitTag_cons, reqField, countKey_cons,
        countKey_nil, getField_cons, getField_nil, decodeString,
        AgentConfig.toJson, agentType_roundtrip, agentConfig_roundtrip _ h,
        Bind.bind, Except.bind, Pure.pure, Except.pure, Except.map]
  | DeregisterAgent agent_id =>
      simp [serialize, deserialize, splitTag_cons, reqField, countKey_cons,
        countKey_nil, getField_cons, getField_nil, decodeString,
        Bind.bind, Except.bind, Pure.pure, Except.pure, Except.map]
  | ExecuteAction agent_id action ticks =>
      simp only [GameMessage.wfB, Bool.and_eq_true, decide_eq_true_eq] at h
      simp [serialize, deserialize, splitTag_cons, reqField, countKey_cons,
        countKey_nil, getField_cons, getField_nil, decodeString,
        action_roundtrip _ h.1, decodeUInt_natCast _ _ h.2,
        Bind.bind, Except.bind, Pure.pure, Except.pure, Except.map]
  | Reset seed scenario =>
      simp only [GameMessage.wfB] at h
      cases seed with
      | none =>
          cases scenario <;>
            simp [serialize, deserialize, splitTag_cons, optField, countKey_cons,
              countKey_nil, getField_cons, getField_nil, decodeString,
              jsonOfOptNat, jsonOfOptStr,
              Bind.bind, Except.bind, Pure.pure, Except.pure, Except.map]
      | some n =>
          simp only [decide_eq_true_eq] at h
          cases scenario <;>
            simp [serialize, deserialize, splitTag_cons, optField, countKey_cons,
              countKey_nil, getField_cons, getField_nil, decodeString,
              jsonOfOptNat, jsonOfOptStr, decodeUInt_natCast _ _ h,
              Bind.bind, Except.bind, Pure.pure, Except.pure, Except.map]
  | GetStateHash =>
      simp [serialize, deserialize, splitTag_cons]
  | ConfigureStreams agent_id profile =>
      simp [serialize, deserialize, splitTag_cons, reqField, countKey_cons,
        countKey_nil, getField_cons, getField_nil, decodeString,
        Bind.bind, Except.bind, Pure.pure, Except.pure, Except.map]
  | Shutdown =>
      simp [serialize, deserialize, splitTag_cons]

/-- C6 witness: the amended round trip at an `ExecuteAction` carrying a
`Parameterized` action with extra open-map parameters. -/
theorem C6_envelope_roundtrip_witness :
    deserialize (serialize (.ExecuteAction "agent-1"
        (.Parameterized "set_work_priority"
          [("colonist_id", .str "Human917"), ("priority", .num 1)]) 10)) =
      .ok (.ExecuteAction "agent-1"
        (.Parameterized "set_work_priority"
          [("colonist_id", .str "Human917"), ("priority", .num 1)]) 10) :=
  C6_envelope_roundtrip
    (.ExecuteAction "agent-1"
      (.Parameterized "set_work_priority"
        [("colonist_id", .str "Human917"), ("priority", .num 1)]) 10)
    (by decide)

end GameRL
